import Mathlib

/-
  Shallow embedding of src/asus_touchpad.py (asus-numberpad-driver).

  Conventions used throughout:
  * evdev key codes are `Nat` values (KEY_NUMLOCK = 69, KEY_CALC = 140, ...).
  * A grid key is either a plain evdev key code (`Key.code`, for which the
    source's `isEvent` returns True) or a literal unicode string given by the
    list of its characters' code points (`Key.uni`).
  * Emitted uinput events are modelled by `Ev`: key press/release events,
    `EV_SYN.SYN_REPORT` markers and `EV_MSC.MSC_SCAN` scan-code events.
  * The source computes grid indices with real-number division
    (`col_width = (maxx_numpad - minx_numpad) / col_count`,
    `col = math.floor((x - minx_numpad) / col_width)`).  Over the exact
    rationals this equals the integer floor division
    `((x - minx_numpad) * col_count) / (maxx_numpad - minx_numpad)`;
    the embedding uses the integer form (so that everything is kernel
    computable) and `colIdx_eq_floor` / `rowIdx_eq_floor` below prove it
    equal to the source's floor-of-real-division formula.
  * Similarly the icon slide-ratio comparisons (`x < maxx - ratio * maxx`,
    floats in the source) are embedded by exact cross-multiplied integer
    comparisons; `slide_beyond_lt_iff` / `slide_beyond_gt_iff` prove them
    equivalent to the rational-arithmetic originals.
-/

/-- A logical key as stored in `abs_mt_slot_numpad_key`: an evdev key code,
or a literal unicode string (list of character code points). -/
inductive Key where
  | code : Nat → Key
  | uni : List Nat → Key
deriving DecidableEq

def KEY_NUMLOCK : Nat := 69

def KEY_CALC : Nat := 140

def KEY_LEFTCTRL : Nat := 29

def KEY_LEFTSHIFT : Nat := 42

def KEY_U : Nat := 22

/-- `isEvent` from the source: True exactly for plain evdev key codes. -/
def isEvent : Key → Bool
  | Key.code _ => true
  | Key.uni _ => false

/-- A synthetic event written to the virtual uinput device. -/
inductive Ev where
  | keyEv : Nat → Bool → Ev
  | syn : Ev
  | msc : Nat → Ev
deriving DecidableEq

/-- Key code for an uppercase hex digit character, as obtained by the source
via `getattr(ecodess, 'KEY_%s' % hex_digit)` (evdev codes KEY_0..KEY_9,
KEY_A..KEY_F). Digits are represented by their numeric value 0..15. -/
def hexKeyCode : Nat → Nat
  | 0 => 11
  | 1 => 2
  | 2 => 3
  | 3 => 4
  | 4 => 5
  | 5 => 6
  | 6 => 7
  | 7 => 8
  | 8 => 9
  | 9 => 10
  | 10 => 30
  | 11 => 48
  | 12 => 46
  | 13 => 32
  | 14 => 18
  | 15 => 33
  | _ => 0

/-- Fuel-driven helper computing base-16 digits, most significant first. -/
def hexDigitsAux : Nat → Nat → List Nat
  | 0, _ => []
  | _, 0 => []
  | fuel + 1, n + 1 => hexDigitsAux fuel ((n + 1) / 16) ++ [(n + 1) % 16]

/-- The digits of `'%X' % n`: uppercase hex digits of `n`, most significant
first (`"0"` for `n = 0`). -/
def hexDigits (n : Nat) : List Nat :=
  if n = 0 then [0] else hexDigitsAux n n

/-- `get_compose_key_events_for_unicode_string(value)` from the source:
the scan/key/syn triples for left-ctrl, left-shift and "U", all with the
given press value. -/
def get_compose_key_events_for_unicode_string (v : Bool) : List Ev :=
  [Ev.msc KEY_LEFTCTRL, Ev.keyEv KEY_LEFTCTRL v, Ev.syn,
   Ev.msc KEY_LEFTSHIFT, Ev.keyEv KEY_LEFTSHIFT v, Ev.syn,
   Ev.msc KEY_U, Ev.keyEv KEY_U v, Ev.syn]

/-- The press/release event block the source appends for one hex digit of a
character's code point. -/
def hex_digit_events (d : Nat) : List Ev :=
  [Ev.msc (hexKeyCode d), Ev.keyEv (hexKeyCode d) true, Ev.syn,
   Ev.msc (hexKeyCode d), Ev.keyEv (hexKeyCode d) false, Ev.syn]

/-- `get_events_for_unicode_string(string)` from the source.  The source
iterates over the characters of the string but executes
`return start_events + key_events + end_events` inside the loop body, so it
returns after processing only the first character; for the empty string the
loop body never runs and the function implicitly returns `None`. -/
def get_events_for_unicode_string (s : List Nat) : Option (List Ev) :=
  match s with
  | [] => none
  | c :: _ =>
      get_compose_key_events_for_unicode_string true
        ++ (hexDigits c).flatMap hex_digit_events
        ++ get_compose_key_events_for_unicode_string false

/-- The immutable configuration derived from the model layout and the
touchpad dimensions at startup. -/
structure Config where
  minx : Int
  maxx : Int
  miny : Int
  maxy : Int
  leftOffset : Int
  rightOffset : Int
  topOffset : Int
  bottomOffset : Int
  keys : List (List (Option Key))
  keyRepetitions : Bool
  oneTouchKeyRotation : Bool
  topRightIconWidth : Int
  topRightIconHeight : Int
  topRightIconOnTopLeft : Bool
  topLeftIconWidth : Int
  topLeftIconHeight : Int
  topLeftSlideXRatio : Rat
  topLeftSlideYRatio : Rat
  topRightSlideXRatio : Rat
  topRightSlideYRatio : Rat
  topLeftSlideKeys : List Ev
  topLeftSlideActivateNumpad : Bool
  topLeftSlideDeactivateNumpad : Bool

def Config.minxNumpad (c : Config) : Int := c.minx + c.leftOffset

def Config.maxxNumpad (c : Config) : Int := c.maxx - c.rightOffset

def Config.minyNumpad (c : Config) : Int := c.miny + c.topOffset

def Config.maxyNumpad (c : Config) : Int := c.maxy - c.bottomOffset

/-- `col_count = len(max(keys, key=len))`: the length of the longest row. -/
def Config.colCount (c : Config) : Nat := (c.keys.map List.length).foldr max 0

def Config.rowCount (c : Config) : Nat := c.keys.length

/-- `col_width = (maxx_numpad - minx_numpad) / col_count` (real division
in the source; exact rational here). -/
def Config.colWidth (c : Config) : Rat :=
  ((c.maxxNumpad - c.minxNumpad : Int) : Rat) / (c.colCount : Rat)

/-- `row_height = (maxy_numpad - miny_numpad) / row_count`. -/
def Config.rowHeight (c : Config) : Rat :=
  ((c.maxyNumpad - c.minyNumpad : Int) : Rat) / (c.rowCount : Rat)

/-- `math.floor((x - minx_numpad) / col_width)` as exact integer floor
division (see `colIdx_eq_floor`). -/
def colIdx (c : Config) (x : Int) : Int :=
  ((x - c.minxNumpad) * (c.colCount : Int)) / (c.maxxNumpad - c.minxNumpad)

/-- `math.floor((y - miny_numpad) / row_height)` as exact integer floor
division (see `rowIdx_eq_floor`). -/
def rowIdx (c : Config) (y : Int) : Int :=
  ((y - c.minyNumpad) * (c.rowCount : Int)) / (c.maxyNumpad - c.minyNumpad)

/-- Grid cell lookup with the source's bounds behaviour: negative indices are
rejected explicitly, too-large indices raise `IndexError` which the callers
turn into `None`; a present cell may itself hold `None`. -/
def Config.cellAt (c : Config) (row col : Int) : Option Key :=
  if row < 0 ∨ col < 0 then none
  else ((c.keys.get? row.toNat).bind fun r => r.get? col.toNat).join

/-- `get_touched_key()` from the source, as a function of the slot's
position. -/
def get_touched_key (c : Config) (x y : Int) : Option Key :=
  c.cellAt (rowIdx c y) (colIdx c x)

/-- `is_pressed_touchpad_top_right_icon()` as a function of the slot's
position. -/
def is_pressed_touchpad_top_right_icon (c : Config) (x y : Int) : Bool :=
  if ¬c.topRightIconOnTopLeft then
    decide (x ≥ c.maxx - c.topRightIconWidth) && decide (y ≤ c.topRightIconHeight)
  else
    decide (x ≤ c.topRightIconWidth) && decide (y ≤ c.topRightIconHeight)

/-- `is_pressed_touchpad_top_left_icon()` as a function of the slot's
position. -/
def is_pressed_touchpad_top_left_icon (c : Config) (x y : Int) : Bool :=
  if ¬(c.topLeftIconWidth > 0) ∨ ¬(c.topLeftIconHeight > 0) then false
  else decide (x ≤ c.topLeftIconWidth) && decide (y ≤ c.topLeftIconHeight)

/-- Exact integer form of the float comparison `x < m - r * m`
(see `slide_beyond_lt_iff`). -/
def slide_beyond_lt (r : Rat) (m x : Int) : Bool :=
  decide (x * (r.den : Int) < m * (r.den : Int) - r.num * m)

/-- Exact integer form of the float comparison `x > r * m`
(see `slide_beyond_gt_iff`). -/
def slide_beyond_gt (r : Rat) (m x : Int) : Bool :=
  decide (x * (r.den : Int) > r.num * m)

/-- The per-slot state touched by the dispatcher loop for one hardware slot,
together with the process-wide pieces it reads and writes.  `trArmed` /
`tlArmed` stand for `top_right_icon_touch_start_time != 0` /
`top_left_icon_touch_start_time != 0` (in the contact/position event paths
the start times are only ever compared against the zero sentinel, so only
their non-zeroness matters; the `MSC_TIMESTAMP` hold-duration path is
modelled separately, see `takes_top_right_icon_touch_longer_then_set_up_activation_time`).
`active` is the process-wide `numlock` flag; `sysNumlock` the host LED
state; `out` the list of events written to the virtual device so far.
The bus commands and grab/ungrab side effects of `activate_numpad` /
`deactivate_numpad` do not touch any of these fields and are modelled
separately by `NumpadState`. -/
structure SlotState where
  x : Int
  y : Int
  assigned : Option Key
  trArmed : Bool
  tlArmed : Bool
  active : Bool
  sysNumlock : Bool
  out : List Ev
deriving DecidableEq

/-- The state at process start (slot arrays initialised to -1 / None),
restricted to traces on which the numpad is already active. -/
def slotInit : SlotState :=
  { x := -1, y := -1, assigned := none, trArmed := false, tlArmed := false,
    active := true, sysNumlock := true, out := [] }

/-- `set_none_to_current_mt_slot()`. -/
def set_none_to_current_mt_slot (s : SlotState) : SlotState :=
  { s with assigned := none, x := 0, y := 0 }

/-- `pressed_numpad_key()`.  For a plain key code a press event plus syn
marker is written; for a unicode string key the compose sequence from
`get_events_for_unicode_string` is written (the source would raise on an
empty string — the `.getD []` branch is unreachable for the well-formed
grids hypothesised in the theorems below).  Never called with no assigned
key in the source. -/
def pressed_numpad_key (s : SlotState) : SlotState :=
  match s.assigned with
  | some (Key.code k) => { s with out := s.out ++ [Ev.keyEv k true, Ev.syn] }
  | some (Key.uni cs) => { s with out := s.out ++ (get_events_for_unicode_string cs).getD [] }
  | none => s

/-- `unpressed_numpad_key(replaced_by_key)`: a release event is written only
when the currently assigned key is a plain key code (`isEvent`); then the
slot is reassigned or reset. -/
def unpressed_numpad_key (replacedBy : Option Key) (s : SlotState) : SlotState :=
  let s1 :=
    match s.assigned with
    | some (Key.code k) => { s with out := s.out ++ [Ev.keyEv k false, Ev.syn] }
    | _ => s
  match replacedBy with
  | some k => { s1 with assigned := some k }
  | none => set_none_to_current_mt_slot s1

/-- `replaced_numpad_key(touched_key_now)`. -/
def replaced_numpad_key (touchedKeyNow : Key) (s : SlotState) : SlotState :=
  pressed_numpad_key (unpressed_numpad_key (some touchedKeyNow) s)

/-- `is_not_finger_moved_to_another_key()`, run after each position update.
With a non-`None` assigned key the source's three-way `elif` chain reduces
to: rotate when one-touch rotation is on and the new position maps to a
key, otherwise release (the third branch requires `assigned == None` and is
unreachable from here). -/
def is_not_finger_moved_to_another_key (c : Config) (s : SlotState) : SlotState :=
  match s.assigned with
  | none => s
  | some k =>
      if k = Key.code KEY_CALC then s
      else if k = Key.code KEY_NUMLOCK then s
      else if s.active then
        let tn := get_touched_key c s.x s.y
        if tn ≠ some k then
          if c.oneTouchKeyRotation ∧ tn.isSome then
            match tn with
            | some tk => replaced_numpad_key tk s
            | none => s
          else unpressed_numpad_key none s
        else s
      else s

/-- `pressed_touchpad_top_right_icon(value)`: on a press record the touch
start and assign the NUMLOCK pseudo-key; a release does nothing here. -/
def pressed_touchpad_top_right_icon (v : Bool) (s : SlotState) : SlotState :=
  if v then { s with trArmed := true, assigned := some (Key.code KEY_NUMLOCK) }
  else s

/-- `pressed_touchpad_top_left_icon(e)`: on a press record the touch start
and assign the CALC pseudo-key; on a release reset the slot. -/
def pressed_touchpad_top_left_icon (v : Bool) (s : SlotState) : SlotState :=
  if v then { s with tlArmed := true, assigned := some (Key.code KEY_CALC) }
  else set_none_to_current_mt_slot s

/-- `is_slided_from_top_left_icon(e)`: returns whether the slide fired and
performs its state resets (the source resets the timer and the slot in
both the fired and the not-fired branch). -/
def is_slided_from_top_left_icon (c : Config) (v : Bool) (s : SlotState) :
    Bool × SlotState :=
  if v then (false, s)
  else if ¬s.tlArmed then (false, s)
  else if s.assigned = some (Key.code KEY_CALC)
      ∧ slide_beyond_gt c.topLeftSlideXRatio c.maxx s.x = true
      ∧ slide_beyond_gt c.topLeftSlideYRatio c.maxy s.y = true then
    (true, set_none_to_current_mt_slot { s with tlArmed := false })
  else
    (false, set_none_to_current_mt_slot { s with tlArmed := false })

/-- `is_slided_from_top_right_icon(e)`: unlike the top-left variant, the
not-fired branch performs no reset at all. -/
def is_slided_from_top_right_icon (c : Config) (v : Bool) (s : SlotState) :
    Bool × SlotState :=
  if v then (false, s)
  else if ¬s.trArmed then (false, s)
  else if s.assigned = some (Key.code KEY_NUMLOCK)
      ∧ slide_beyond_lt c.topRightSlideXRatio c.maxx s.x = true
      ∧ slide_beyond_lt c.topRightSlideYRatio c.maxy s.y = true then
    (true, { s with trArmed := false })
  else (false, s)

/-- `send_numlock_key(value)`. -/
def send_numlock_key (v : Bool) (out : List Ev) : List Ev :=
  out ++ [Ev.msc 70053, Ev.keyEv KEY_NUMLOCK v, Ev.syn]

/-- `local_numlock_pressed()` restricted to the state modelled by
`SlotState`: toggle the activation flag, sync the host numlock LED with a
synthesized press+release when they disagree, and reset the current slot.
(The `activate_numpad`/`deactivate_numpad` bus and grab side effects live
in `NumpadState`.) -/
def local_numlock_pressed (s : SlotState) : SlotState :=
  let s1 :=
    if ¬s.active then
      let s2 : SlotState := { s with active := true }
      if ¬s2.sysNumlock then
        { s2 with out := send_numlock_key false (send_numlock_key true s2.out),
                  sysNumlock := true }
      else s2
    else
      let s2 : SlotState := { s with active := false }
      if s2.sysNumlock then
        { s2 with out := send_numlock_key false (send_numlock_key true s2.out),
                  sysNumlock := false }
      else s2
  set_none_to_current_mt_slot s1

/-- `use_slide_func_for_top_right_icon()`. -/
def use_slide_func_for_top_right_icon (s : SlotState) : SlotState :=
  local_numlock_pressed s

/-- `use_bindings_for_touchpad_left_icon_slide_function()`. -/
def use_bindings_for_touchpad_left_icon_slide_function (c : Config) (s : SlotState) :
    SlotState :=
  let s1 : SlotState := { s with out := s.out ++ c.topLeftSlideKeys }
  if c.topLeftSlideActivateNumpad ∧ ¬s1.active then local_numlock_pressed s1
  else if c.topLeftSlideDeactivateNumpad ∧ s1.active then local_numlock_pressed s1
  else s1

/-- One `BTN_TOOL_*` ("touching" boolean) event for the current slot, from
`listen_touchpad_events` (the branch at the end of the loop body): icon
hit-tests on the current position, then the two slide detectors, then the
grid key logic guarded by the activation flag, the usable rectangle, the
non-negative indices, the release-without-press filter, and the cell
lookup. -/
def touch_step (c : Config) (v : Bool) (s : SlotState) : SlotState :=
  if is_pressed_touchpad_top_right_icon c s.x s.y then
    pressed_touchpad_top_right_icon v s
  else if is_pressed_touchpad_top_left_icon c s.x s.y then
    pressed_touchpad_top_left_icon v s
  else
    let tl := is_slided_from_top_left_icon c v s
    if tl.1 then use_bindings_for_touchpad_left_icon_slide_function c tl.2
    else
      let tr := is_slided_from_top_right_icon c v tl.2
      if tr.1 then use_slide_func_for_top_right_icon tr.2
      else
        let s2 := tr.2
        if ¬s2.active then s2
        else if s2.x < c.minxNumpad ∨ s2.x > c.maxxNumpad
            ∨ s2.y < c.minyNumpad ∨ s2.y > c.maxyNumpad then s2
        else if rowIdx c s2.y < 0 ∨ colIdx c s2.x < 0 then s2
        else if s2.assigned = none ∧ v = false then s2
        else
          match (c.keys.get? (rowIdx c s2.y).toNat).bind
              (fun r => r.get? (colIdx c s2.x).toNat) with
          | none => s2
          | some none => s2
          | some (some key) =>
              let s3 := { s2 with assigned := some key }
              if v then
                if c.keyRepetitions then pressed_numpad_key s3
                else unpressed_numpad_key none (pressed_numpad_key s3)
              else unpressed_numpad_key none s3

/-- The touchpad events relevant to one slot's contact handling:
`ABS_MT_POSITION_X`, `ABS_MT_POSITION_Y` and the `BTN_TOOL_*` touching
transition.  (`MSC_TIMESTAMP` markers only drive the two icon hold
detectors, which require an armed icon timer; `ABS_MT_TRACKING_ID` only
updates the liveness array; physical button events are swallowed while the
numpad is active.) -/
inductive TEv where
  | mx : Int → TEv
  | my : Int → TEv
  | touch : Bool → TEv
deriving DecidableEq

/-- One iteration of the dispatcher loop body for one event. -/
def dispatch_event (c : Config) (s : SlotState) : TEv → SlotState
  | TEv.mx v => is_not_finger_moved_to_another_key c { s with x := v }
  | TEv.my v => is_not_finger_moved_to_another_key c { s with y := v }
  | TEv.touch v => touch_step c v s

def dispatch_events (c : Config) (s : SlotState) (l : List TEv) : SlotState :=
  l.foldl (dispatch_event c) s

/-- One physical contact on the slot: position events, then the
contact-down, then position events while held, then the contact-up. -/
structure Contact where
  preMoves : List TEv
  midMoves : List TEv

def contact_events (ct : Contact) : List TEv :=
  ct.preMoves ++ [TEv.touch true] ++ ct.midMoves ++ [TEv.touch false]

def run_contacts (c : Config) (s : SlotState) (l : List Contact) : SlotState :=
  l.foldl (fun s ct => dispatch_events c s (contact_events ct)) s

def isMove : TEv → Bool
  | TEv.mx _ => true
  | TEv.my _ => true
  | TEv.touch _ => false

/-- The slot's current position is outside both icon rectangles. -/
def outsideIconsB (c : Config) (s : SlotState) : Bool :=
  !is_pressed_touchpad_top_right_icon c s.x s.y
    && !is_pressed_touchpad_top_left_icon c s.x s.y

/-- Side condition on one contact: only position events between the two
touching transitions, the contact-down is processed at a position outside
both icon rectangles, and at the contact-up either the position is outside
both icon rectangles or no key is assigned. -/
def contactOkB (c : Config) (s : SlotState) (ct : Contact) : Bool :=
  ct.preMoves.all isMove && ct.midMoves.all isMove
    && outsideIconsB c (dispatch_events c s ct.preMoves)
    && (let s2 := dispatch_events c
          (dispatch_event c (dispatch_events c s ct.preMoves) (TEv.touch true))
          ct.midMoves
        outsideIconsB c s2 || decide (s2.assigned = none))

def traceOkB (c : Config) : SlotState → List Contact → Bool
  | _, [] => true
  | s, ct :: rest =>
      contactOkB c s ct && traceOkB c (dispatch_events c s (contact_events ct)) rest

/-- A grid key is well formed when it is not one of the two reserved icon
pseudo-keys and, if a unicode string, is non-empty (the source would crash
sending `None` events for an empty string). -/
def goodKeyB : Key → Bool
  | Key.code k => decide (k ≠ KEY_NUMLOCK) && decide (k ≠ KEY_CALC)
  | Key.uni cs => !cs.isEmpty

def goodGridB (c : Config) : Bool :=
  c.keys.all fun r => r.all fun cell =>
    match cell with
    | none => true
    | some k => goodKeyB k

/-- Well-formedness of a configuration: sound grid contents and a
non-degenerate usable rectangle and grid (the source exits at startup when
the key grid is empty; a zero-span usable rectangle is the fatal
misconfiguration class of the spec). -/
def goodConfigB (c : Config) : Bool :=
  goodGridB c && decide (0 < c.colCount) && decide (0 < c.rowCount)
    && decide (c.minxNumpad < c.maxxNumpad) && decide (c.minyNumpad < c.maxyNumpad)

/-- Number of key events for key code `k` with press value `d` in `l`. -/
def countKey (k : Nat) (d : Bool) (l : List Ev) : Nat := l.count (Ev.keyEv k d)

/-- The process-wide activation state as touched by `activate_numpad`,
`deactivate_numpad`, `increase_brightness` and the monitor threads:
the `numlock` flag, the `brightness` index, the per-slot assigned keys
(`abs_mt_slot_numpad_key`, five entries) with the current slot cursor,
and counters/records of the externally visible side effects (number of
power-on, power-off and brightness-level i2c bus commands issued, number
of writes of the persisted brightness file, and the last persisted
level). -/
structure NumpadState where
  numlock : Bool
  brightness : Int
  slots : List (Option Key)
  currentSlot : Nat
  busOn : Nat
  busOff : Nat
  busLevel : Nat
  persistWrites : Nat
  lastPersisted : Option Nat
deriving DecidableEq

/-- `activate_numpad()`: when the grab raises, the `except` clause swallows
everything and no bus command is sent; otherwise the power-on command is
issued, a second level command when the default backlight level differs
from `"0x01"` (levels are modelled by their numeric values, so 1), and
`brightness` is resolved from the configured level list (−1 when absent).
Slot assignments are not touched. -/
def activate_numpad (grabOk : Bool) (defaultLevel : Nat) (levels : List Nat)
    (s : NumpadState) : NumpadState :=
  if ¬grabOk then s
  else
    let s1 := { s with busOn := s.busOn + 1 }
    let s2 := if defaultLevel ≠ 1 then { s1 with busLevel := s1.busLevel + 1 } else s1
    match levels.findIdx? (fun l => decide (l = defaultLevel)) with
    | some i => { s2 with brightness := (i : Int) }
    | none => { s2 with brightness := -1 }

/-- `deactivate_numpad()`: when the ungrab raises, the `except` clause
swallows everything, so neither the power-off command nor the brightness
reset happens; otherwise the power-off command is issued and `brightness`
is reset to 0.  Slot assignments are not touched in either case. -/
def deactivate_numpad (ungrabOk : Bool) (s : NumpadState) : NumpadState :=
  if ¬ungrabOk then s
  else { s with busOff := s.busOff + 1, brightness := 0 }

/-- `check_system_numlock_vs_local()` (one poll of the host-numlock
monitor), as a function of the host LED state read by
`get_system_numlock`. -/
def check_system_numlock_vs_local (sysNumlock sysNumlockEnablesNumpad : Bool)
    (ungrabOk grabOk : Bool) (defaultLevel : Nat) (levels : List Nat)
    (s : NumpadState) : NumpadState :=
  if ¬sysNumlock ∧ s.numlock then deactivate_numpad ungrabOk { s with numlock := false }
  else if sysNumlock ∧ sysNumlockEnablesNumpad ∧ ¬s.numlock then
    activate_numpad grabOk defaultLevel levels { s with numlock := true }
  else s

/-- `check_touchpad_status()` (one poll of the touchpad-enabled monitor). -/
def check_touchpad_status (isTouchpadEnabled touchpadDisablesNumpad ungrabOk : Bool)
    (s : NumpadState) : NumpadState :=
  if ¬isTouchpadEnabled ∧ touchpadDisablesNumpad ∧ s.numlock then
    deactivate_numpad ungrabOk { s with numlock := false }
  else s

/-- `local_numlock_pressed()` restricted to `NumpadState`: toggle the flag,
run the corresponding transition, and `set_none_to_current_mt_slot()` —
which clears only the current slot's assigned key.  (The numlock key
press/release sent to the virtual device is part of the `SlotState`
model.) -/
def local_numlock_pressed_state (grabOk ungrabOk : Bool) (defaultLevel : Nat)
    (levels : List Nat) (s : NumpadState) : NumpadState :=
  let s1 :=
    if ¬s.numlock then activate_numpad grabOk defaultLevel levels { s with numlock := true }
    else deactivate_numpad ungrabOk { s with numlock := false }
  { s1 with slots := s1.slots.set s1.currentSlot none }

/-- `increase_brightness()`: advance the index (wrap to 0 when the
incremented index would leave the configured list), persist the newly
selected level, and issue one brightness bus command. -/
def increase_brightness (levels : List Nat) (s : NumpadState) : NumpadState :=
  let b : Int := if s.brightness + 1 ≥ (levels.length : Int) then 0 else s.brightness + 1
  let s1 := { s with brightness := b }
  let s2 := { s1 with persistWrites := s1.persistWrites + 1,
                      lastPersisted := levels.get? b.toNat }
  { s2 with busLevel := s2.busLevel + 1 }

/-- Outcome of one `xinput --list-props` query inside
`is_device_enabled`. -/
inductive QueryOutcome where
  | ok : Bool → QueryOutcome
  | noEnabledLine : QueryOutcome
  | raised : QueryOutcome
deriving DecidableEq

/-- `is_device_enabled(device_name)`'s effect on the global
`getting_device_status_failure_count` and its return value.  The first
statement of the `try` block resets the counter to 0 unconditionally, so
both failure paths (no `Device Enabled` line; an exception) leave the
counter at exactly 0 + 1, regardless of its previous value. -/
def is_device_enabled_count : QueryOutcome → Nat → Nat × Bool
  | QueryOutcome.ok b, _ => (0, b)
  | QueryOutcome.noEnabledLine, _ => (0 + 1, false)
  | QueryOutcome.raised, _ => (0 + 1, true)

/-- The failure counter after a sequence of `is_device_enabled` calls. -/
def failure_count_after (qs : List QueryOutcome) (count : Nat) : Nat :=
  qs.foldl (fun cnt q => (is_device_enabled_count q cnt).1) count

/-- The loop guard of `check_touchpad_status_endless_cycle`:
`while True and getting_device_status_failure_count < 9`. -/
def touchpad_monitor_loop_continues (count : Nat) : Bool := decide (count < 9)

/-- `takes_top_right_icon_touch_longer_then_set_up_activation_time()`:
given the configured activation time, the current time and the recorded
touch start time (0 = unset; timestamps are modelled as integers, only
their ordering and the zero sentinel matter), returns whether the hold
fired together with the updated start time — which is reset to 0 inside
the fired branch, before the caller's touchpad-enabled gate runs. -/
def takes_top_right_icon_touch_longer_then_set_up_activation_time
    (activationTime now startTime : Int) (assigned : Option Key) : Bool × Int :=
  if startTime = 0 then (false, startTime)
  else if assigned = some (Key.code KEY_NUMLOCK) ∧ now - startTime > activationTime then
    (true, 0)
  else (false, startTime)

/-- The `MSC_TIMESTAMP` numlock-icon branch of `listen_touchpad_events`:
when the position is inside the top-right icon and the hold detector
fires, query the touchpad-enabled state and invoke
`local_numlock_pressed()` only when `(is_touchpad_enabled and
touchpad_disables_numpad) or not touchpad_disables_numpad`.  Returns
whether the toggle fired and the updated touch start time. -/
def timestamp_numlock_branch (c : Config) (touchpadDisablesNumpad isTouchpadEnabled : Bool)
    (activationTime now startTime : Int) (x y : Int) (assigned : Option Key) :
    Bool × Int :=
  if is_pressed_touchpad_top_right_icon c x y then
    let r := takes_top_right_icon_touch_longer_then_set_up_activation_time
      activationTime now startTime assigned
    if r.1 then
      if (isTouchpadEnabled && touchpadDisablesNumpad) || !touchpadDisablesNumpad then
        (true, r.2)
      else (false, r.2)
    else (false, r.2)
  else (false, startTime)

/-- The ratio 0.05 used as default slide-activation ratio. -/
def ratioDefault : Rat := Rat.mk' 1 20 (by decide) (by decide)

/-- The 3×3 numeric-pad grid of the spec's scenario (key codes KEY_KP7 ..
KEY_KP3). -/
def gridKeysW : List (List (Option Key)) :=
  [[some (Key.code 71), some (Key.code 72), some (Key.code 73)],
   [some (Key.code 75), some (Key.code 76), some (Key.code 77)],
   [some (Key.code 79), some (Key.code 80), some (Key.code 81)]]

/-- Concrete configuration used by the witnesses: 300×300 usable
rectangle, the 3×3 grid above, a 50×50 top-right icon, no top-left icon. -/
def cfgW : Config :=
  { minx := 0, maxx := 300, miny := 0, maxy := 300,
    leftOffset := 0, rightOffset := 0, topOffset := 0, bottomOffset := 0,
    keys := gridKeysW,
    keyRepetitions := false, oneTouchKeyRotation := false,
    topRightIconWidth := 50, topRightIconHeight := 50, topRightIconOnTopLeft := false,
    topLeftIconWidth := 0, topLeftIconHeight := 0,
    topLeftSlideXRatio := ratioDefault, topLeftSlideYRatio := ratioDefault,
    topRightSlideXRatio := ratioDefault, topRightSlideYRatio := ratioDefault,
    topLeftSlideKeys := [], topLeftSlideActivateNumpad := true,
    topLeftSlideDeactivateNumpad := true }

/-- `cfgW` with key repetitions configured. -/
def cfgRep : Config := { cfgW with keyRepetitions := true }

/-- `cfgW` with key repetitions and one-touch key rotation configured. -/
def cfgRot : Config := { cfgW with keyRepetitions := true, oneTouchKeyRotation := true }

/-- A contact that starts inside the top-right (numlock) icon at (280, 20),
slides slightly out of the icon to (290, 60) — not far enough for the
slide-away detector — and is released there. -/
def iconEscapeTrace : List TEv :=
  [TEv.mx 280, TEv.my 20, TEv.touch true, TEv.mx 290, TEv.my 60, TEv.touch false]

/-- The state of the C7 scenario before the first advance: two configured
levels, unset index −1. -/
def brightnessInitW : NumpadState :=
  { numlock := true, brightness := -1, slots := [none, none, none, none, none],
    currentSlot := 0, busOn := 0, busOff := 0, busLevel := 0, persistWrites := 0,
    lastPersisted := none }

/-- An active state with keys assigned to slots 0 and 1 (slot cursor 0). -/
def c3state : NumpadState :=
  { numlock := true, brightness := 2,
    slots := [some (Key.code 71), some (Key.code 76), none, none, none],
    currentSlot := 0, busOn := 0, busOff := 0, busLevel := 0, persistWrites := 0,
    lastPersisted := none }

/-- The state of a held contact on key KEY_KP5 = 76 under `cfgRot`
(repetitions and rotation on): positions set to (110, 110), contact-down
processed, key 76 assigned and down. -/
def heldContactState : SlotState :=
  dispatch_events cfgRot slotInit [TEv.mx 110, TEv.my 110, TEv.touch true]

/-- Every key code has equally many press and release events in `l`. -/
def balancedOut (l : List Ev) : Prop :=
  ∀ j, countKey j true l = countKey j false l

/-- `l` is balanced except that key code `kc` has exactly one unreleased
press. -/
def keyDeficit (kc : Nat) (l : List Ev) : Prop :=
  ∀ j, countKey j true l = countKey j false l + (if j = kc then 1 else 0)

/-- Invariant of the dispatcher state between events while the numpad is
active and no icon contact is in progress: the icon timers are unarmed,
and the output stream is balanced — except that a currently assigned plain
key code has exactly one unreleased press; an assigned key is never an
icon pseudo-key, is a non-empty string if a string, and always matches the
grid key of the slot's current position. -/
def SlotInv (c : Config) (s : SlotState) : Prop :=
  s.active = true ∧ s.sysNumlock = true ∧ s.trArmed = false ∧ s.tlArmed = false ∧
  (match s.assigned with
   | none => balancedOut s.out
   | some (Key.code kc) =>
       kc ≠ KEY_NUMLOCK ∧ kc ≠ KEY_CALC ∧
       get_touched_key c s.x s.y = some (Key.code kc) ∧ keyDeficit kc s.out
   | some (Key.uni cs) =>
       cs ≠ [] ∧ get_touched_key c s.x s.y = some (Key.uni cs) ∧ balancedOut s.out)

/-- `SlotInv` without the position-consistency conjuncts (the state right
after a position update, before `is_not_finger_moved_to_another_key`
re-establishes consistency). -/
def SlotInvLoose (c : Config) (s : SlotState) : Prop :=
  s.active = true ∧ s.sysNumlock = true ∧ s.trArmed = false ∧ s.tlArmed = false ∧
  (match s.assigned with
   | none => balancedOut s.out
   | some (Key.code kc) => kc ≠ KEY_NUMLOCK ∧ kc ≠ KEY_CALC ∧ keyDeficit kc s.out
   | some (Key.uni cs) => cs ≠ [] ∧ balancedOut s.out)

def SlotIdle (c : Config) (s : SlotState) : Prop := SlotInv c s ∧ s.assigned = none

/-- The slot state of the pairing witness after the two position events of
its single contact. -/
def preMovedState : SlotState := dispatch_events cfgW slotInit [TEv.mx 110, TEv.my 110]

theorem slide_beyond_lt_iff (r : Rat) (m x : Int) :
    slide_beyond_lt r m x = true ↔ (x : Rat) < (m : Rat) - r * (m : Rat) := by
  have hden : (0 : Rat) < ((r.den : Nat) : Rat) := by
    exact_mod_cast r.den_pos
  have h1 : ((m : Rat) - r * (m : Rat)) * ((r.den : Nat) : Rat) =
      (m : Rat) * ((r.den : Nat) : Rat) - (r.num : Rat) * (m : Rat) := by
    rw [sub_mul, mul_comm r ((m : Rat)), mul_assoc, Rat.mul_den_eq_num]
    ring
  have key : (m : Rat) - r * (m : Rat) =
      ((m * (r.den : Int) - r.num * m : Int) : Rat) / ((r.den : Nat) : Rat) := by
    rw [eq_div_iff hden.ne', h1]
    push_cast
    ring_nf
  rw [slide_beyond_lt, decide_eq_true_iff, key, lt_div_iff₀ hden]
  constructor
  · intro h
    exact_mod_cast h
  · intro h
    exact_mod_cast h

theorem slide_beyond_gt_iff (r : Rat) (m x : Int) :
    slide_beyond_gt r m x = true ↔ (x : Rat) > r * (m : Rat) := by
  have hden : (0 : Rat) < ((r.den : Nat) : Rat) := by
    exact_mod_cast r.den_pos
  have h1 : r * (m : Rat) * ((r.den : Nat) : Rat) = (r.num : Rat) * (m : Rat) := by
    rw [mul_comm r ((m : Rat)), mul_assoc, Rat.mul_den_eq_num]
    ring
  have key : r * (m : Rat) = ((r.num * m : Int) : Rat) / ((r.den : Nat) : Rat) := by
    rw [eq_div_iff hden.ne', h1]
    push_cast
    ring_nf
  rw [slide_beyond_gt, decide_eq_true_iff, gt_iff_lt, gt_iff_lt, key, div_lt_iff₀ hden]
  constructor
  · intro h
    exact_mod_cast h
  · intro h
    exact_mod_cast h

theorem colIdx_eq_floor (c : Config) (x : Int) (hn : 0 < c.colCount)
    (hs : c.minxNumpad < c.maxxNumpad) :
    colIdx c x = ⌊((x - c.minxNumpad : Int) : Rat) / c.colWidth⌋ := by
  have hspos : (0 : Int) < c.maxxNumpad - c.minxNumpad := by omega
  have hsnat : ((c.maxxNumpad - c.minxNumpad).toNat : Int) = c.maxxNumpad - c.minxNumpad :=
    Int.toNat_of_nonneg hspos.le
  have hsq : (((c.maxxNumpad - c.minxNumpad).toNat : Nat) : Rat)
      = ((c.maxxNumpad - c.minxNumpad : Int) : Rat) := by
    exact_mod_cast congrArg (fun z : Int => (z : Rat)) hsnat
  have hq : ((x - c.minxNumpad : Int) : Rat) / c.colWidth
      = (((x - c.minxNumpad) * (c.colCount : Int) : Int) : Rat)
        / (((c.maxxNumpad - c.minxNumpad).toNat : Nat) : Rat) := by
    rw [hsq, Config.colWidth, div_div_eq_mul_div]
    push_cast
    ring_nf
  rw [colIdx, hq, Rat.floor_intCast_div_natCast, hsnat]

theorem rowIdx_eq_floor (c : Config) (y : Int) (hn : 0 < c.rowCount)
    (hs : c.minyNumpad < c.maxyNumpad) :
    rowIdx c y = ⌊((y - c.minyNumpad : Int) : Rat) / c.rowHeight⌋ := by
  have hspos : (0 : Int) < c.maxyNumpad - c.minyNumpad := by omega
  have hsnat : ((c.maxyNumpad - c.minyNumpad).toNat : Int) = c.maxyNumpad - c.minyNumpad :=
    Int.toNat_of_nonneg hspos.le
  have hsq : (((c.maxyNumpad - c.minyNumpad).toNat : Nat) : Rat)
      = ((c.maxyNumpad - c.minyNumpad : Int) : Rat) := by
    exact_mod_cast congrArg (fun z : Int => (z : Rat)) hsnat
  have hq : ((y - c.minyNumpad : Int) : Rat) / c.rowHeight
      = (((y - c.minyNumpad) * (c.rowCount : Int) : Int) : Rat)
        / (((c.maxyNumpad - c.minyNumpad).toNat : Nat) : Rat) := by
    rw [hsq, Config.rowHeight, div_div_eq_mul_div]
    push_cast
    ring_nf
  rw [rowIdx, hq, Rat.floor_intCast_div_natCast, hsnat]

theorem le_foldr_max (l : List Nat) : ∀ a ∈ l, a ≤ l.foldr max 0 := by
  induction l with
  | nil => intro a ha; cases ha
  | cons b t ih =>
      intro a ha
      rcases List.mem_cons.mp ha with h | h
      · subst h; exact le_max_left _ _
      · exact le_trans (ih a h) (le_max_right _ _)

theorem length_le_colCount (c : Config) (r : List (Option Key)) (hr : r ∈ c.keys) :
    r.length ≤ c.colCount :=
  le_foldr_max _ _ (List.mem_map_of_mem List.length hr)

theorem cellAt_none_of_neg (c : Config) (row col : Int) (h : row < 0 ∨ col < 0) :
    c.cellAt row col = none := by
  unfold Config.cellAt
  rw [if_pos h]

theorem cellAt_none_of_row_ge (c : Config) (row col : Int)
    (h : (c.rowCount : Int) ≤ row) : c.cellAt row col = none := by
  unfold Config.cellAt
  split
  · rfl
  · have hget : c.keys.get? row.toNat = none := by
      apply List.get?_eq_none.mpr
      have h2 : (c.keys.length : Int) ≤ row := h
      omega
    rw [hget]
    rfl

theorem cellAt_none_of_col_ge (c : Config) (row col : Int)
    (h : (c.colCount : Int) ≤ col) : c.cellAt row col = none := by
  unfold Config.cellAt
  split
  · rfl
  · cases hger : c.keys.get? row.toNat with
    | none => rfl
    | some r =>
        have hlen : r.length ≤ c.colCount := length_le_colCount c r (List.get?_mem hger)
        have hnone : r.get? col.toNat = none := by
          apply List.get?_eq_none.mpr
          omega
        rw [Option.some_bind, hnone]
        rfl

theorem colIdx_neg (c : Config) (x : Int) (hn : 0 < c.colCount)
    (hs : c.minxNumpad < c.maxxNumpad) (h : x < c.minxNumpad) : colIdx c x < 0 := by
  unfold colIdx
  apply Int.ediv_neg'
  · have h2 : (0 : Int) < (c.colCount : Int) := by exact_mod_cast hn
    have h3 : x - c.minxNumpad < 0 := by omega
    nlinarith
  · omega

theorem colIdx_nonneg (c : Config) (x : Int) (hs : c.minxNumpad < c.maxxNumpad)
    (h : c.minxNumpad ≤ x) : 0 ≤ colIdx c x := by
  unfold colIdx
  apply Int.ediv_nonneg
  · have h2 : (0 : Int) ≤ (c.colCount : Int) := by positivity
    have h3 : (0 : Int) ≤ x - c.minxNumpad := by omega
    nlinarith
  · omega

theorem colIdx_ge_count (c : Config) (x : Int) (hn : 0 < c.colCount)
    (hs : c.minxNumpad < c.maxxNumpad) (h : c.maxxNumpad < x) :
    (c.colCount : Int) ≤ colIdx c x := by
  unfold colIdx
  rw [Int.le_ediv_iff_mul_le (by omega)]
  have h1 : c.maxxNumpad - c.minxNumpad + 1 ≤ x - c.minxNumpad := by omega
  have h2 : (0 : Int) < (c.colCount : Int) := by exact_mod_cast hn
  nlinarith

theorem rowIdx_neg (c : Config) (y : Int) (hn : 0 < c.rowCount)
    (hs : c.minyNumpad < c.maxyNumpad) (h : y < c.minyNumpad) : rowIdx c y < 0 := by
  unfold rowIdx
  apply Int.ediv_neg'
  · have h2 : (0 : Int) < (c.rowCount : Int) := by exact_mod_cast hn
    have h3 : y - c.minyNumpad < 0 := by omega
    nlinarith
  · omega

theorem rowIdx_nonneg (c : Config) (y : Int) (hs : c.minyNumpad < c.maxyNumpad)
    (h : c.minyNumpad ≤ y) : 0 ≤ rowIdx c y := by
  unfold rowIdx
  apply Int.ediv_nonneg
  · have h2 : (0 : Int) ≤ (c.rowCount : Int) := by positivity
    have h3 : (0 : Int) ≤ y - c.minyNumpad := by omega
    nlinarith
  · omega

theorem rowIdx_ge_count (c : Config) (y : Int) (hn : 0 < c.rowCount)
    (hs : c.minyNumpad < c.maxyNumpad) (h : c.maxyNumpad < y) :
    (c.rowCount : Int) ≤ rowIdx c y := by
  unfold rowIdx
  rw [Int.le_ediv_iff_mul_le (by omega)]
  have h1 : c.maxyNumpad - c.minyNumpad + 1 ≤ y - c.minyNumpad := by omega
  have h2 : (0 : Int) < (c.rowCount : Int) := by exact_mod_cast hn
  nlinarith

/-- Claim C4: for every position inside the usable rectangle the geometry
mapping returns exactly the content of the grid cell at
`row = floor((y - min_y) / row_height)`, `col = floor((x - min_x) / col_width)`
(a key when the cell holds one, `None` when the cell is empty or absent
from its ragged row — the `get?`/`join` on the right is `None` in exactly
those cases); for every position outside the usable rectangle it returns
`None`.  The mapping is total by construction: the source's `IndexError`
is caught and turned into `None`, which the embedding renders by the
`Option`-valued lookup, so no input can raise. -/
theorem get_touched_key_geometry (c : Config) (hn : 0 < c.colCount) (hm : 0 < c.rowCount)
    (hsx : c.minxNumpad < c.maxxNumpad) (hsy : c.minyNumpad < c.maxyNumpad) (x y : Int) :
    ((c.minxNumpad ≤ x ∧ x ≤ c.maxxNumpad ∧ c.minyNumpad ≤ y ∧ y ≤ c.maxyNumpad) →
      0 ≤ rowIdx c y ∧ 0 ≤ colIdx c x ∧
      get_touched_key c x y
        = ((c.keys.get? (rowIdx c y).toNat).bind fun r => r.get? (colIdx c x).toNat).join) ∧
    (¬(c.minxNumpad ≤ x ∧ x ≤ c.maxxNumpad ∧ c.minyNumpad ≤ y ∧ y ≤ c.maxyNumpad) →
      get_touched_key c x y = none) := by
  constructor
  · rintro ⟨h1, h2, h3, h4⟩
    have hc : 0 ≤ colIdx c x := colIdx_nonneg c x hsx h1
    have hr : 0 ≤ rowIdx c y := rowIdx_nonneg c y hsy h3
    refine ⟨hr, hc, ?_⟩
    unfold get_touched_key Config.cellAt
    rw [if_neg (by omega)]
  · intro h
    unfold get_touched_key
    by_cases h1 : c.minxNumpad ≤ x
    · by_cases h2 : x ≤ c.maxxNumpad
      · by_cases h3 : c.minyNumpad ≤ y
        · by_cases h4 : y ≤ c.maxyNumpad
          · exact absurd ⟨h1, h2, h3, h4⟩ h
          · exact cellAt_none_of_row_ge c _ _ (rowIdx_ge_count c y hm hsy (by omega))
        · exact cellAt_none_of_neg c _ _ (Or.inl (rowIdx_neg c y hm hsy (by omega)))
      · exact cellAt_none_of_col_ge c _ _ (colIdx_ge_count c x hn hsx (by omega))
    · exact cellAt_none_of_neg c _ _ (Or.inr (colIdx_neg c x hn hsx (by omega)))

/-- Witness for C4: the spec's scenario grid.  A touch at (10, 10) resolves
to the key of cell (0, 0) (KEY_KP7 = 71), a touch at (250, 250) to cell
(2, 2) (KEY_KP3 = 81), and the out-of-rectangle position (310, 10) maps to
`None`. -/
theorem get_touched_key_geometry_witness :
    (0 < cfgW.colCount ∧ 0 < cfgW.rowCount ∧ cfgW.minxNumpad < cfgW.maxxNumpad
      ∧ cfgW.minyNumpad < cfgW.maxyNumpad) ∧
    get_touched_key cfgW 10 10
      = ((cfgW.keys.get? (rowIdx cfgW 10).toNat).bind fun r => r.get? (colIdx cfgW 10).toNat).join ∧
    get_touched_key cfgW 10 10 = some (Key.code 71) ∧
    get_touched_key cfgW 310 10 = none ∧
    get_touched_key cfgW 250 250 = some (Key.code 81) :=
  ⟨by decide,
   ((get_touched_key_geometry cfgW (by decide) (by decide) (by decide) (by decide) 10 10).1
      (by decide)).2.2,
   by decide,
   (get_touched_key_geometry cfgW (by decide) (by decide) (by decide) (by decide) 310 10).2
      (by decide),
   by decide⟩

/-- Claim C8 (code bug): the emission engine is supposed to emit one
complete compose sequence per character of a literal string, but
`get_events_for_unicode_string` returns from inside its character loop, so
for the two-character string "AB" (code points 0x41, 0x42) it produces
exactly the events of the one-character string "A": the hex digits 4 and 1
of 0x41 are pressed (key codes 5 and 2), while the digit 2 of 0x42 (key
code 3), required by the claim for the second character, never appears. -/
theorem unicode_string_emits_first_char_only :
    get_events_for_unicode_string [65, 66] = get_events_for_unicode_string [65] ∧
    Ev.keyEv 5 true ∈ (get_events_for_unicode_string [65, 66]).getD [] ∧
    Ev.keyEv 2 true ∈ (get_events_for_unicode_string [65, 66]).getD [] ∧
    Ev.keyEv 3 true ∉ (get_events_for_unicode_string [65, 66]).getD [] ∧
    Ev.keyEv 3 false ∉ (get_events_for_unicode_string [65, 66]).getD [] := by
  decide

/-- Claim C9 (code bug): the touchpad-status monitor is supposed to
terminate once the failure counter reaches the loop threshold 9, but
`is_device_enabled` resets the counter to 0 at the top of its `try` block
before any increment, so after any sequence of calls starting from the
initial counter 0 — in particular after 9 consecutive failures — the
counter is at most 1, the guard `getting_device_status_failure_count < 9`
still holds, and the loop never exits. -/
theorem touchpad_monitor_failure_count_capped :
    (∀ qs : List QueryOutcome, failure_count_after qs 0 < 9) ∧
    failure_count_after (List.replicate 9 QueryOutcome.raised) 0 = 1 ∧
    touchpad_monitor_loop_continues
      (failure_count_after (List.replicate 9 QueryOutcome.raised) 0) = true := by
  have key : ∀ (qs : List QueryOutcome) (cnt : Nat), cnt ≤ 1 →
      failure_count_after qs cnt ≤ 1 := by
    intro qs
    induction qs with
    | nil => intro cnt h; exact h
    | cons q t ih =>
        intro cnt h
        have hstep : (is_device_enabled_count q cnt).1 ≤ 1 := by
          cases q <;> simp [is_device_enabled_count]
        exact ih _ hstep
  refine ⟨?_, by decide, by decide⟩
  intro qs
  have := key qs 0 (by omega)
  omega

/-- Claim C7: one brightness advance sets the index to
`(previous + 1) mod levels.length` (so −1 advances to 0), records exactly
one persisted-value write of the newly selected level, and issues exactly
one brightness bus command. -/
theorem increase_brightness_spec (levels : List Nat) (s : NumpadState)
    (hn : 0 < levels.length) (hb1 : -1 ≤ s.brightness)
    (hb2 : s.brightness < (levels.length : Int)) :
    (increase_brightness levels s).brightness
      = (s.brightness + 1) % (levels.length : Int) ∧
    (increase_brightness levels s).persistWrites = s.persistWrites + 1 ∧
    (increase_brightness levels s).busLevel = s.busLevel + 1 ∧
    (increase_brightness levels s).busOn = s.busOn ∧
    (increase_brightness levels s).busOff = s.busOff ∧
    (increase_brightness levels s).lastPersisted
      = levels.get? (((s.brightness + 1) % (levels.length : Int)).toNat) := by
  have hmod : (if s.brightness + 1 ≥ (levels.length : Int) then 0 else s.brightness + 1)
      = (s.brightness + 1) % (levels.length : Int) := by
    split
    · rename_i hcase
      have hEq : s.brightness + 1 = (levels.length : Int) := by omega
      rw [hEq, Int.emod_self]
    · rename_i hcase
      rw [Int.emod_eq_of_lt (by omega) (by omega)]
  refine ⟨?_, rfl, rfl, rfl, rfl, ?_⟩
  · show (if s.brightness + 1 ≥ (levels.length : Int) then 0 else s.brightness + 1)
      = (s.brightness + 1) % (levels.length : Int)
    exact hmod
  · show levels.get?
        ((if s.brightness + 1 ≥ (levels.length : Int) then 0 else s.brightness + 1).toNat)
      = levels.get? (((s.brightness + 1) % (levels.length : Int)).toNat)
    rw [hmod]

/-- Witness for C7: with two levels and index −1, three consecutive
advances visit indices 0, 1, 0, each issuing one bus command and one
persisted write. -/
theorem increase_brightness_spec_witness :
    ((0:Nat) < [1, 2].length ∧ (-1:Int) ≤ brightnessInitW.brightness
      ∧ brightnessInitW.brightness < (([1, 2].length : Nat) : Int)) ∧
    (increase_brightness [1, 2] brightnessInitW).brightness = 0 ∧
    (increase_brightness [1, 2]
      (increase_brightness [1, 2] brightnessInitW)).brightness = 1 ∧
    (increase_brightness [1, 2] (increase_brightness [1, 2]
      (increase_brightness [1, 2] brightnessInitW))).brightness = 0 ∧
    (increase_brightness [1, 2] (increase_brightness [1, 2]
      (increase_brightness [1, 2] brightnessInitW))).busLevel = 3 ∧
    (increase_brightness [1, 2] (increase_brightness [1, 2]
      (increase_brightness [1, 2] brightnessInitW))).persistWrites = 3 ∧
    (increase_brightness [1, 2] brightnessInitW).lastPersisted = some 1 := by
  refine ⟨by decide, ?_, by decide, by decide, by decide, by decide, by decide⟩
  rw [(increase_brightness_spec [1, 2] brightnessInitW (by decide) (by decide)
    (by decide)).1]
  decide

theorem activate_numpad_fields (g : Bool) (d : Nat) (lv : List Nat) (s : NumpadState) :
    (activate_numpad g d lv s).numlock = s.numlock ∧
    (activate_numpad g d lv s).slots = s.slots ∧
    (activate_numpad g d lv s).busOff = s.busOff ∧
    (g = true → (activate_numpad g d lv s).busOn = s.busOn + 1) ∧
    (g = false → activate_numpad g d lv s = s) := by
  cases g with
  | false => simp [activate_numpad]
  | true =>
      unfold activate_numpad
      rw [if_neg (by simp)]
      cases hfind : lv.findIdx? (fun l => decide (l = d)) with
      | none => by_cases hd : d ≠ 1 <;> simp [hfind, hd]
      | some i => by_cases hd : d ≠ 1 <;> simp [hfind, hd]

theorem deactivate_numpad_fields (u : Bool) (s : NumpadState) :
    (deactivate_numpad u s).numlock = s.numlock ∧
    (deactivate_numpad u s).slots = s.slots ∧
    (deactivate_numpad u s).currentSlot = s.currentSlot ∧
    (deactivate_numpad u s).busOn = s.busOn ∧
    (u = true → (deactivate_numpad u s).busOff = s.busOff + 1 ∧
      (deactivate_numpad u s).brightness = 0) ∧
    (u = false → deactivate_numpad u s = s) := by
  cases u <;> simp [deactivate_numpad]

/-- Claim C6: with the host numlock LED on (and `sys_numlock_enables_numpad`
set), two consecutive polls of the reconciliation monitor starting from the
inactive state perform the power-on bus command exactly once — the second
poll is a no-op because the numpad is already active; symmetrically, with
the LED off, two consecutive polls from the active state perform the
power-off command exactly once, the second being a no-op. -/
theorem activation_request_idempotent (s : NumpadState) (d : Nat) (lv : List Nat)
    (hoff : s.numlock = false) :
    ((check_system_numlock_vs_local true true true true d lv
        (check_system_numlock_vs_local true true true true d lv s)).busOn
      = s.busOn + 1) ∧
    (check_system_numlock_vs_local true true true true d lv
        (check_system_numlock_vs_local true true true true d lv s)
      = check_system_numlock_vs_local true true true true d lv s) ∧
    ((check_system_numlock_vs_local false true true true d lv
        (check_system_numlock_vs_local false true true true d lv
          (check_system_numlock_vs_local true true true true d lv s))).busOff
      = s.busOff + 1) ∧
    (check_system_numlock_vs_local false true true true d lv
        (check_system_numlock_vs_local false true true true d lv
          (check_system_numlock_vs_local true true true true d lv s))
      = check_system_numlock_vs_local false true true true d lv
          (check_system_numlock_vs_local true true true true d lv s)) := by
  have h1 : check_system_numlock_vs_local true true true true d lv s
      = activate_numpad true d lv { s with numlock := true } := by
    unfold check_system_numlock_vs_local
    rw [if_neg (by simp), if_pos (by simp [hoff])]
  have hfacts := activate_numpad_fields true d lv { s with numlock := true }
  have hnl : (activate_numpad true d lv { s with numlock := true }).numlock = true :=
    hfacts.1
  have h2 : check_system_numlock_vs_local true true true true d lv
      (activate_numpad true d lv { s with numlock := true })
      = activate_numpad true d lv { s with numlock := true } := by
    unfold check_system_numlock_vs_local
    rw [if_neg (by simp), if_neg (by simp [hnl])]
  have h3 : check_system_numlock_vs_local false true true true d lv
      (activate_numpad true d lv { s with numlock := true })
      = deactivate_numpad true
          { activate_numpad true d lv { s with numlock := true } with numlock := false } := by
    unfold check_system_numlock_vs_local
    rw [if_pos (by simp [hnl])]
  have hdnl : (deactivate_numpad true
      { activate_numpad true d lv { s with numlock := true } with numlock := false }).numlock
      = false :=
    (deactivate_numpad_fields true _).1
  have h4 : check_system_numlock_vs_local false true true true d lv
      (deactivate_numpad true
        { activate_numpad true d lv { s with numlock := true } with numlock := false })
      = deactivate_numpad true
          { activate_numpad true d lv { s with numlock := true } with numlock := false } := by
    unfold check_system_numlock_vs_local
    rw [if_neg (by simp [hdnl]), if_neg (by simp)]
  refine ⟨?_, ?_, ?_, ?_⟩
  · rw [h1, h2]
    exact hfacts.2.2.2.1 rfl
  · rw [h1, h2]
  · rw [h1, h3, h4]
    have hbusOff : (activate_numpad true d lv { s with numlock := true }).busOff = s.busOff :=
      hfacts.2.2.1
    have := (deactivate_numpad_fields true
      { activate_numpad true d lv { s with numlock := true } with numlock := false }).2.2.2.2.1 rfl
    rw [this.1]
    simpa using hbusOff
  · rw [h1, h3, h4]

/-- Witness for C6 at a concrete inactive state. -/
theorem activation_request_idempotent_witness :
    ({ brightnessInitW with numlock := false } : NumpadState).numlock = false ∧
    (check_system_numlock_vs_local true true true true 1 [1, 2]
        (check_system_numlock_vs_local true true true true 1 [1, 2]
          { brightnessInitW with numlock := false })).busOn
      = { brightnessInitW with numlock := false }.busOn + 1 ∧
    (check_system_numlock_vs_local false true true true 1 [1, 2]
        (check_system_numlock_vs_local false true true true 1 [1, 2]
          (check_system_numlock_vs_local true true true true 1 [1, 2]
            { brightnessInitW with numlock := false }))).busOff
      = { brightnessInitW with numlock := false }.busOff + 1 :=
  ⟨rfl,
   (activation_request_idempotent { brightnessInitW with numlock := false } 1 [1, 2] rfl).1,
   (activation_request_idempotent { brightnessInitW with numlock := false } 1 [1, 2]
      rfl).2.2.1⟩

/-- Counterexample to C3 as stated: an Active → Inactive transition taken by
the host-numlock monitor (LED off, numpad on) flips the flag and sends the
power-off command, but leaves both assigned slot keys exactly as they
were — no slot is cleared, let alone all five. -/
theorem deactivation_leaves_slots_assigned :
    (check_system_numlock_vs_local false false true true 1 [] c3state).numlock = false ∧
    (check_system_numlock_vs_local false false true true 1 [] c3state).busOff = 1 ∧
    (check_system_numlock_vs_local false false true true 1 [] c3state).slots
      = [some (Key.code 71), some (Key.code 76), none, none, none] ∧
    ¬(∀ sl ∈ (check_system_numlock_vs_local false false true true 1 [] c3state).slots,
        sl = none) := by
  decide

/-- Claim C3 (amended): Active → Inactive transitions do not clear the slot
table.  The monitor-driven transition (`check_system_numlock_vs_local` with
the LED off) leaves every slot's assigned key unchanged; the toggle path
(`local_numlock_pressed`) clears exactly the current slot, not all five;
and when the ungrab raises, `deactivate_numpad` performs nothing at all
(no power-off command, no brightness reset — and still no slot clearing). -/
theorem deactivation_slot_clearing (s : NumpadState) (ens g : Bool) (d : Nat)
    (lv : List Nat) (hact : s.numlock = true) :
    ((check_system_numlock_vs_local false ens true g d lv s).numlock = false ∧
     (check_system_numlock_vs_local false ens true g d lv s).slots = s.slots) ∧
    (local_numlock_pressed_state g true d lv s).slots
      = s.slots.set s.currentSlot none ∧
    deactivate_numpad false { s with numlock := false } = { s with numlock := false } := by
  have h1 : check_system_numlock_vs_local false ens true g d lv s
      = deactivate_numpad true { s with numlock := false } := by
    unfold check_system_numlock_vs_local
    rw [if_pos (by simp [hact])]
  refine ⟨⟨?_, ?_⟩, ?_, ?_⟩
  · rw [h1, (deactivate_numpad_fields true _).1]
  · rw [h1, (deactivate_numpad_fields true _).2.1]
  · unfold local_numlock_pressed_state
    rw [if_neg (by simp [hact])]
    have hslots : (deactivate_numpad true { s with numlock := false }).slots = s.slots :=
      (deactivate_numpad_fields true _).2.1
    have hcur : (deactivate_numpad true { s with numlock := false }).currentSlot
        = s.currentSlot :=
      (deactivate_numpad_fields true _).2.2.1
    simp [hslots, hcur]
  · exact (deactivate_numpad_fields false _).2.2.2.2.2 rfl

/-- Witness for C3 (amended) at the concrete state `c3state`. -/
theorem deactivation_slot_clearing_witness :
    c3state.numlock = true ∧
    (check_system_numlock_vs_local false false true true 1 [] c3state).slots
      = c3state.slots ∧
    (local_numlock_pressed_state true true 1 [] c3state).slots
      = c3state.slots.set c3state.currentSlot none ∧
    deactivate_numpad false { c3state with numlock := false }
      = { c3state with numlock := false } :=
  ⟨rfl,
   (deactivation_slot_clearing c3state false true 1 [] rfl).1.2,
   (deactivation_slot_clearing c3state false true 1 [] rfl).2.1,
   (deactivation_slot_clearing c3state false true 1 [] rfl).2.2⟩

/-- Claim C10: when the numlock-icon hold reaches the configured activation
time (the hold detector fires and has already reset the start time to 0),
the toggle runs exactly when the `touchpad_disables_numpad` flag is unset
or the touchpad is reported enabled; with the flag set and the touchpad
reported disabled no toggle fires, and — the start time now being 0 — the
hold detector cannot fire again until a fresh touch re-arms it. -/
theorem numlock_hold_gate (c : Config) (flag enabled : Bool) (aT now st x y : Int)
    (a : Option Key) (hin : is_pressed_touchpad_top_right_icon c x y = true)
    (hst : st ≠ 0) (ha : a = some (Key.code KEY_NUMLOCK)) (ht : now - st > aT) :
    ((timestamp_numlock_branch c flag enabled aT now st x y a).1 = true
      ↔ (flag = false ∨ enabled = true)) ∧
    (timestamp_numlock_branch c flag enabled aT now st x y a).2 = 0 ∧
    (flag = true → enabled = false →
      (timestamp_numlock_branch c flag enabled aT now st x y a).1 = false) ∧
    (takes_top_right_icon_touch_longer_then_set_up_activation_time aT now
      (timestamp_numlock_branch c flag enabled aT now st x y a).2 a).1 = false := by
  have htake : takes_top_right_icon_touch_longer_then_set_up_activation_time aT now st a
      = (true, 0) := by
    unfold takes_top_right_icon_touch_longer_then_set_up_activation_time
    rw [if_neg hst, if_pos ⟨ha, ht⟩]
  have hbr : timestamp_numlock_branch c flag enabled aT now st x y a
      = if (enabled && flag) || !flag then (true, 0) else (false, 0) := by
    unfold timestamp_numlock_branch
    rw [if_pos hin, htake]
    simp
  have htake0 : (takes_top_right_icon_touch_longer_then_set_up_activation_time aT now 0 a).1
      = false := by
    unfold takes_top_right_icon_touch_longer_then_set_up_activation_time
    rw [if_pos rfl]
  rw [hbr]
  cases flag <;> cases enabled <;> simp_all

/-- Witness for C10: with the flag set and the touchpad reported disabled,
a hold that reached the activation time does not fire the toggle and
leaves the start time at 0 (so a further timestamp cannot fire either). -/
theorem numlock_hold_gate_witness :
    is_pressed_touchpad_top_right_icon cfgW 280 20 = true ∧
    (timestamp_numlock_branch cfgW true false 1 3 1 280 20
      (some (Key.code KEY_NUMLOCK))).1 = false ∧
    (timestamp_numlock_branch cfgW true false 1 3 1 280 20
      (some (Key.code KEY_NUMLOCK))).2 = 0 ∧
    (timestamp_numlock_branch cfgW true true 1 3 1 280 20
      (some (Key.code KEY_NUMLOCK))).1 = true :=
  ⟨by decide,
   (numlock_hold_gate cfgW true false 1 3 1 280 20 (some (Key.code KEY_NUMLOCK))
      (by decide) (by decide) rfl (by decide)).2.2.1 rfl rfl,
   (numlock_hold_gate cfgW true false 1 3 1 280 20 (some (Key.code KEY_NUMLOCK))
      (by decide) (by decide) rfl (by decide)).2.1,
   (numlock_hold_gate cfgW true true 1 3 1 280 20 (some (Key.code KEY_NUMLOCK))
      (by decide) (by decide) rfl (by decide)).1.mpr (Or.inr rfl)⟩

/-- Claim C5: with one-touch rotation enabled and the numpad active, a
position update that moves a held contact from the cell of key `a` to the
cell of a different key `b` runs the replace operation: the emitted suffix
is exactly up(`a`), syn, down(`b`), syn — so up(`a`) precedes down(`b`)
strictly, and every prefix of the suffix that contains down(`b`) already
contains up(`a`): at no point of the emitted stream has `b` been pressed
while `a` is still unreleased. -/
theorem one_touch_rotation_replace (c : Config) (s : SlotState) (a b : Nat) (v : Int)
    (hrot : c.oneTouchKeyRotation = true) (hact : s.active = true)
    (ha : s.assigned = some (Key.code a))
    (hA1 : a ≠ KEY_CALC) (hA2 : a ≠ KEY_NUMLOCK)
    (hb : get_touched_key c v s.y = some (Key.code b)) (hne : b ≠ a) :
    (dispatch_event c s (TEv.mx v)).out
      = s.out ++ [Ev.keyEv a false, Ev.syn, Ev.keyEv b true, Ev.syn] ∧
    (dispatch_event c s (TEv.mx v)).assigned = some (Key.code b) ∧
    (∀ p t : List Ev,
      p ++ t = [Ev.keyEv a false, Ev.syn, Ev.keyEv b true, Ev.syn] →
      Ev.keyEv b true ∈ p → Ev.keyEv a false ∈ p) := by
  obtain ⟨x0, y0, a0, tr0, tl0, ac0, sn0, o0⟩ := s
  simp only at ha hact hb
  subst ha hact
  have hstep : dispatch_event c
        ⟨x0, y0, some (Key.code a), tr0, tl0, true, sn0, o0⟩ (TEv.mx v)
      = replaced_numpad_key (Key.code b)
          ⟨v, y0, some (Key.code a), tr0, tl0, true, sn0, o0⟩ := by
    show is_not_finger_moved_to_another_key c
        ⟨v, y0, some (Key.code a), tr0, tl0, true, sn0, o0⟩ = _
    unfold is_not_finger_moved_to_another_key
    simp only
    rw [if_neg (fun h => hA1 (Key.code.inj h)), if_neg (fun h => hA2 (Key.code.inj h))]
    rw [if_pos trivial]
    rw [if_pos (show get_touched_key c v y0 ≠ some (Key.code a) by
      rw [hb]
      intro h
      exact hne (Key.code.inj (Option.some.inj h)))]
    rw [if_pos (And.intro hrot (by rw [hb]; rfl))]
    rw [hb]
  refine ⟨?_, ?_, ?_⟩
  · rw [hstep]
    unfold replaced_numpad_key unpressed_numpad_key pressed_numpad_key
    simp
  · rw [hstep]
    unfold replaced_numpad_key unpressed_numpad_key pressed_numpad_key
    simp
  · intro p t hpt hmem
    rcases p with _ | ⟨e1, p⟩
    · simp at hmem
    · have hhead : e1 = Ev.keyEv a false := by
        have hcong := congrArg List.head? hpt
        simp at hcong
        exact hcong
      rw [hhead]
      exact List.mem_cons_self _ _

/-- Witness for C5: moving the held contact to x = 210 (the cell of
KEY_KP6 = 77) emits up(76), syn, down(77), syn in that order. -/
theorem one_touch_rotation_replace_witness :
    (cfgRot.oneTouchKeyRotation = true ∧ heldContactState.active = true
      ∧ heldContactState.assigned = some (Key.code 76)
      ∧ get_touched_key cfgRot 210 heldContactState.y = some (Key.code 77)) ∧
    (dispatch_event cfgRot heldContactState (TEv.mx 210)).out
      = heldContactState.out ++ [Ev.keyEv 76 false, Ev.syn, Ev.keyEv 77 true, Ev.syn] ∧
    (dispatch_event cfgRot heldContactState (TEv.mx 210)).assigned
      = some (Key.code 77) :=
  ⟨by decide,
   (one_touch_rotation_replace cfgRot heldContactState 76 77 210 (by decide) (by decide)
      (by decide) (by decide) (by decide) (by decide) (by decide)).1,
   (one_touch_rotation_replace cfgRot heldContactState 76 77 210 (by decide) (by decide)
      (by decide) (by decide) (by decide) (by decide) (by decide)).2.1⟩

/-- Claim C2 (code bug): a contact that starts inside the numlock icon at
(280, 20) — the slot is assigned the NUMLOCK pseudo-key — then moves just
outside the icon to (290, 60), short of the slide-away thresholds, and is
released there, falls through to the grid key-release logic: the grid key
of cell (0, 2) (KEY_KP9 = 73) is assigned to the slot and its key-up event
is emitted (with no matching key-down), although the contact started
inside an icon rectangle. -/
theorem icon_contact_emits_grid_key_event :
    (dispatch_events cfgW slotInit [TEv.mx 280, TEv.my 20, TEv.touch true]).assigned
      = some (Key.code KEY_NUMLOCK) ∧
    is_pressed_touchpad_top_right_icon cfgW 280 20 = true ∧
    is_pressed_touchpad_top_right_icon cfgW 290 60 = false ∧
    (dispatch_events cfgW slotInit iconEscapeTrace).out = [Ev.keyEv 73 false, Ev.syn] ∧
    (dispatch_events cfgW slotInit iconEscapeTrace).assigned = none := by
  decide

/-- Counterexample to C1 as stated: with "key repetition" configured
(`key_repetitions = True`), a contact-down on the cell of KEY_KP5 = 76
emits only the key-down event — one down, zero ups — not the claimed
immediate paired down+up (that immediate pair is what happens when key
repetition is NOT configured). -/
theorem key_repetition_down_not_paired :
    cfgRep.keyRepetitions = true ∧
    (dispatch_events cfgRep slotInit [TEv.mx 110, TEv.my 110, TEv.touch true]).out
      = [Ev.keyEv 76 true, Ev.syn] ∧
    countKey 76 true
      (dispatch_events cfgRep slotInit [TEv.mx 110, TEv.my 110, TEv.touch true]).out = 1 ∧
    countKey 76 false
      (dispatch_events cfgRep slotInit [TEv.mx 110, TEv.my 110, TEv.touch true]).out = 0 := by
  decide

theorem countKey_append (k : Nat) (d : Bool) (l1 l2 : List Ev) :
    countKey k d (l1 ++ l2) = countKey k d l1 + countKey k d l2 :=
  List.count_append _ _ _

theorem countKey_press_block (j kc : Nat) :
    countKey j true [Ev.keyEv kc true, Ev.syn] = (if j = kc then 1 else 0) ∧
    countKey j false [Ev.keyEv kc true, Ev.syn] = 0 ∧
    countKey j true [Ev.keyEv kc false, Ev.syn] = 0 ∧
    countKey j false [Ev.keyEv kc false, Ev.syn] = (if j = kc then 1 else 0) := by
  unfold countKey
  by_cases h : j = kc <;> simp [List.count_cons, h, Ev.keyEv.injEq]

theorem countKey_compose (j : Nat) (d v : Bool) :
    countKey j d (get_compose_key_events_for_unicode_string v)
      = if d = v ∧ (j = KEY_LEFTCTRL ∨ j = KEY_LEFTSHIFT ∨ j = KEY_U) then 1 else 0 := by
  unfold countKey get_compose_key_events_for_unicode_string
  unfold KEY_LEFTCTRL KEY_LEFTSHIFT KEY_U
  by_cases h1 : j = 29 <;> by_cases h2 : j = 42 <;> by_cases h3 : j = 22 <;>
    cases d <;> cases v <;>
    simp_all [List.count_cons, Ev.keyEv.injEq]

theorem countKey_hex_block (j : Nat) (d : Nat) :
    countKey j true (hex_digit_events d) = countKey j false (hex_digit_events d) := by
  unfold countKey hex_digit_events
  by_cases h : j = hexKeyCode d <;> simp [List.count_cons, h, Ev.keyEv.injEq]

theorem countKey_hex_flatMap (j : Nat) (ds : List Nat) :
    countKey j true (ds.flatMap hex_digit_events)
      = countKey j false (ds.flatMap hex_digit_events) := by
  induction ds with
  | nil => rfl
  | cons d t ih =>
      rw [List.flatMap_cons, countKey_append, countKey_append, countKey_hex_block, ih]

theorem unicode_events_balanced (cs : List Nat) (j : Nat) :
    countKey j true ((get_events_for_unicode_string cs).getD [])
      = countKey j false ((get_events_for_unicode_string cs).getD []) := by
  cases cs with
  | nil => rfl
  | cons c rest =>
      have hsplit : (get_events_for_unicode_string (c :: rest)).getD []
          = get_compose_key_events_for_unicode_string true
            ++ (hexDigits c).flatMap hex_digit_events
            ++ get_compose_key_events_for_unicode_string false := rfl
      rw [hsplit, countKey_append, countKey_append, countKey_append, countKey_append,
          countKey_hex_flatMap, countKey_compose, countKey_compose,
          countKey_compose, countKey_compose]
      by_cases h : j = KEY_LEFTCTRL ∨ j = KEY_LEFTSHIFT ∨ j = KEY_U
      · simp [h]
        omega
      · simp [h]

theorem keyDeficit_after_press (kc : Nat) (l : List Ev) (h : balancedOut l) :
    keyDeficit kc (l ++ [Ev.keyEv kc true, Ev.syn]) := by
  intro j
  rw [countKey_append, countKey_append, (countKey_press_block j kc).1,
      (countKey_press_block j kc).2.1]
  have := h j
  omega

theorem balanced_after_release (kc : Nat) (l : List Ev) (h : keyDeficit kc l) :
    balancedOut (l ++ [Ev.keyEv kc false, Ev.syn]) := by
  intro j
  rw [countKey_append, countKey_append, (countKey_press_block j kc).2.2.1,
      (countKey_press_block j kc).2.2.2]
  have := h j
  by_cases hj : j = kc <;> simp [hj] at this ⊢ <;> omega

theorem keyDeficit_after_replace (kc tc : Nat) (l : List Ev) (h : keyDeficit kc l) :
    keyDeficit tc ((l ++ [Ev.keyEv kc false, Ev.syn]) ++ [Ev.keyEv tc true, Ev.syn]) :=
  keyDeficit_after_press tc _ (balanced_after_release kc l h)

theorem balanced_after_unicode (l : List Ev) (cs : List Nat) (h : balancedOut l) :
    balancedOut (l ++ (get_events_for_unicode_string cs).getD []) := by
  intro j
  rw [countKey_append, countKey_append, unicode_events_balanced]
  have := h j
  omega

theorem goodGrid_cell (c : Config) (hg : goodGridB c = true) (r : List (Option Key))
    (hr : r ∈ c.keys) (k : Key) (hk : some k ∈ r) : goodKeyB k = true := by
  unfold goodGridB at hg
  rw [List.all_eq_true] at hg
  have := hg r hr
  rw [List.all_eq_true] at this
  exact this (some k) hk

theorem touched_goodKey (c : Config) (x y : Int) (k : Key) (hg : goodGridB c = true)
    (h : get_touched_key c x y = some k) : goodKeyB k = true := by
  unfold get_touched_key Config.cellAt at h
  split at h
  · cases h
  · rw [Option.join_eq_some] at h
    cases hger : c.keys.get? (rowIdx c y).toNat with
    | none => rw [hger] at h; cases h
    | some r =>
        rw [hger, Option.some_bind] at h
        exact goodGrid_cell c hg r (List.get?_mem hger) k (List.get?_mem h)

theorem touched_some_facts (c : Config) (x y : Int) (k : Key)
    (hn : 0 < c.colCount) (hm : 0 < c.rowCount)
    (hsx : c.minxNumpad < c.maxxNumpad) (hsy : c.minyNumpad < c.maxyNumpad)
    (h : get_touched_key c x y = some k) :
    (c.minxNumpad ≤ x ∧ x ≤ c.maxxNumpad ∧ c.minyNumpad ≤ y ∧ y ≤ c.maxyNumpad) ∧
    (0 ≤ rowIdx c y ∧ 0 ≤ colIdx c x) ∧
    (c.keys.get? (rowIdx c y).toNat).bind (fun r => r.get? (colIdx c x).toNat)
      = some (some k) := by
  have hx1 : c.minxNumpad ≤ x := by
    by_contra hcon
    rw [show get_touched_key c x y = none from
      cellAt_none_of_neg c _ _ (Or.inr (colIdx_neg c x hn hsx (by omega)))] at h
    cases h
  have hy1 : c.minyNumpad ≤ y := by
    by_contra hcon
    rw [show get_touched_key c x y = none from
      cellAt_none_of_neg c _ _ (Or.inl (rowIdx_neg c y hm hsy (by omega)))] at h
    cases h
  have hx2 : x ≤ c.maxxNumpad := by
    by_contra hcon
    rw [show get_touched_key c x y = none from
      cellAt_none_of_col_ge c _ _ (colIdx_ge_count c x hn hsx (by omega))] at h
    cases h
  have hy2 : y ≤ c.maxyNumpad := by
    by_contra hcon
    rw [show get_touched_key c x y = none from
      cellAt_none_of_row_ge c _ _ (rowIdx_ge_count c y hm hsy (by omega))] at h
    cases h
  have hc0 : 0 ≤ colIdx c x := colIdx_nonneg c x hsx hx1
  have hr0 : 0 ≤ rowIdx c y := rowIdx_nonneg c y hsy hy1
  refine ⟨⟨hx1, hx2, hy1, hy2⟩, ⟨hr0, hc0⟩, ?_⟩
  unfold get_touched_key Config.cellAt at h
  rw [if_neg (by omega)] at h
  exact Option.join_eq_some.mp h

theorem pressed_code_eq (s : SlotState) (kc : Nat) (h : s.assigned = some (Key.code kc)) :
    pressed_numpad_key s = { s with out := s.out ++ [Ev.keyEv kc true, Ev.syn] } := by
  unfold pressed_numpad_key
  rw [h]

theorem pressed_uni_eq (s : SlotState) (cs : List Nat)
    (h : s.assigned = some (Key.uni cs)) :
    pressed_numpad_key s
      = { s with out := s.out ++ (get_events_for_unicode_string cs).getD [] } := by
  unfold pressed_numpad_key
  rw [h]

theorem unpressed_code_none_eq (s : SlotState) (kc : Nat)
    (h : s.assigned = some (Key.code kc)) :
    unpressed_numpad_key none s
      = { s with out := s.out ++ [Ev.keyEv kc false, Ev.syn],
                 assigned := none, x := 0, y := 0 } := by
  unfold unpressed_numpad_key set_none_to_current_mt_slot
  rw [h]

theorem unpressed_code_some_eq (s : SlotState) (kc : Nat) (k : Key)
    (h : s.assigned = some (Key.code kc)) :
    unpressed_numpad_key (some k) s
      = { s with out := s.out ++ [Ev.keyEv kc false, Ev.syn], assigned := some k } := by
  unfold unpressed_numpad_key
  rw [h]

theorem unpressed_uni_none_eq (s : SlotState) (cs : List Nat)
    (h : s.assigned = some (Key.uni cs)) :
    unpressed_numpad_key none s = { s with assigned := none, x := 0, y := 0 } := by
  unfold unpressed_numpad_key set_none_to_current_mt_slot
  rw [h]

theorem unpressed_uni_some_eq (s : SlotState) (cs : List Nat) (k : Key)
    (h : s.assigned = some (Key.uni cs)) :
    unpressed_numpad_key (some k) s = { s with assigned := some k } := by
  unfold unpressed_numpad_key
  rw [h]

theorem unpressed_none_none_eq (s : SlotState) (h : s.assigned = none) :
    unpressed_numpad_key none s = { s with assigned := none, x := 0, y := 0 } := by
  unfold unpressed_numpad_key set_none_to_current_mt_slot
  rw [h]

theorem goodKey_code (tc : Nat) (h : goodKeyB (Key.code tc) = true) :
    tc ≠ KEY_NUMLOCK ∧ tc ≠ KEY_CALC := by
  simpa [goodKeyB, decide_eq_true_eq] using h

theorem goodKey_uni (cs : List Nat) (h : goodKeyB (Key.uni cs) = true) : cs ≠ [] := by
  simpa [goodKeyB, List.isEmpty_iff] using h

theorem is_not_finger_moved_inv (c : Config) (s : SlotState)
    (hg : goodGridB c = true) (h : SlotInvLoose c s) :
    SlotInv c (is_not_finger_moved_to_another_key c s) := by
  obtain ⟨x0, y0, a0, tr0, tl0, ac0, sn0, o0⟩ := s
  obtain ⟨hact, hsys, htr, htl, hmain⟩ := h
  simp only at hact hsys htr htl hmain
  subst hact hsys htr htl
  cases a0 with
  | none => exact ⟨rfl, rfl, rfl, rfl, hmain⟩
  | some k =>
      cases k with
      | code kc =>
          obtain ⟨hk1, hk2, hdef⟩ := hmain
          unfold is_not_finger_moved_to_another_key
          simp only
          rw [if_neg (fun hq => hk2 (Key.code.inj hq)),
              if_neg (fun hq => hk1 (Key.code.inj hq)), if_pos trivial]
          cases htn : get_touched_key c x0 y0 with
          | none =>
              rw [if_pos (by simp),
                  if_neg (fun hq => by simpa using hq.2)]
              rw [unpressed_code_none_eq _ kc rfl]
              exact ⟨rfl, rfl, rfl, rfl, balanced_after_release kc o0 hdef⟩
          | some tk =>
              by_cases heq : tk = Key.code kc
              · subst heq
                rw [if_neg (by simp)]
                exact ⟨rfl, rfl, rfl, rfl, hk1, hk2, htn, hdef⟩
              · rw [if_pos (by simp [heq])]
                by_cases hrot : c.oneTouchKeyRotation = true
                · rw [if_pos ⟨hrot, rfl⟩]
                  simp only
                  unfold replaced_numpad_key
                  rw [unpressed_code_some_eq _ kc tk rfl]
                  cases tk with
                  | code tc =>
                      rw [pressed_code_eq _ tc rfl]
                      have hgk := goodKey_code tc (touched_goodKey c x0 y0 (Key.code tc) hg htn)
                      exact ⟨rfl, rfl, rfl, rfl, hgk.1, hgk.2, htn,
                        keyDeficit_after_replace kc tc o0 hdef⟩
                  | uni cs2 =>
                      rw [pressed_uni_eq _ cs2 rfl]
                      have hgk := goodKey_uni cs2 (touched_goodKey c x0 y0 (Key.uni cs2) hg htn)
                      exact ⟨rfl, rfl, rfl, rfl, hgk, htn,
                        balanced_after_unicode _ cs2 (balanced_after_release kc o0 hdef)⟩
                · rw [if_neg (fun hq => hrot hq.1)]
                  rw [unpressed_code_none_eq _ kc rfl]
                  exact ⟨rfl, rfl, rfl, rfl, balanced_after_release kc o0 hdef⟩
      | uni cs =>
          obtain ⟨hcs, hbal⟩ := hmain
          unfold is_not_finger_moved_to_another_key
          simp only
          rw [if_neg (by simp), if_neg (by simp), if_pos trivial]
          cases htn : get_touched_key c x0 y0 with
          | none =>
              rw [if_pos (by simp),
                  if_neg (fun hq => by simpa using hq.2)]
              rw [unpressed_uni_none_eq _ cs rfl]
              exact ⟨rfl, rfl, rfl, rfl, hbal⟩
          | some tk =>
              by_cases heq : tk = Key.uni cs
              · subst heq
                rw [if_neg (by simp)]
                exact ⟨rfl, rfl, rfl, rfl, hcs, htn, hbal⟩
              · rw [if_pos (by simp [heq])]
                by_cases hrot : c.oneTouchKeyRotation = true
                · rw [if_pos ⟨hrot, rfl⟩]
                  simp only
                  unfold replaced_numpad_key
                  rw [unpressed_uni_some_eq _ cs tk rfl]
                  cases tk with
                  | code tc =>
                      rw [pressed_code_eq _ tc rfl]
                      have hgk := goodKey_code tc (touched_goodKey c x0 y0 (Key.code tc) hg htn)
                      exact ⟨rfl, rfl, rfl, rfl, hgk.1, hgk.2, htn,
                        keyDeficit_after_press tc o0 hbal⟩
                  | uni cs2 =>
                      rw [pressed_uni_eq _ cs2 rfl]
                      have hgk := goodKey_uni cs2 (touched_goodKey c x0 y0 (Key.uni cs2) hg htn)
                      exact ⟨rfl, rfl, rfl, rfl, hgk, htn,
                        balanced_after_unicode _ cs2 hbal⟩
                · rw [if_neg (fun hq => hrot hq.1)]
                  rw [unpressed_uni_none_eq _ cs rfl]
                  exact ⟨rfl, rfl, rfl, rfl, hbal⟩

theorem slotInv_loose (c : Config) (s : SlotState) (h : SlotInv c s) : SlotInvLoose c s := by
  obtain ⟨h1, h2, h3, h4, hm⟩ := h
  refine ⟨h1, h2, h3, h4, ?_⟩
  cases ha : s.assigned with
  | none => rw [ha] at hm; exact hm
  | some k =>
      cases k with
      | code kc =>
          rw [ha] at hm
          exact ⟨hm.1, hm.2.1, hm.2.2.2⟩
      | uni cs =>
          rw [ha] at hm
          exact ⟨hm.1, hm.2.2⟩

theorem slotInvLoose_set_x (c : Config) (s : SlotState) (v : Int)
    (h : SlotInvLoose c s) : SlotInvLoose c { s with x := v } := by
  obtain ⟨x0, y0, a0, tr0, tl0, ac0, sn0, o0⟩ := s
  exact h

theorem slotInvLoose_set_y (c : Config) (s : SlotState) (v : Int)
    (h : SlotInvLoose c s) : SlotInvLoose c { s with y := v } := by
  obtain ⟨x0, y0, a0, tr0, tl0, ac0, sn0, o0⟩ := s
  exact h

theorem is_not_finger_moved_none (c : Config) (s : SlotState)
    (h : s.assigned = none) : is_not_finger_moved_to_another_key c s = s := by
  unfold is_not_finger_moved_to_another_key
  rw [h]

theorem dispatch_move_inv (c : Config) (s : SlotState) (e : TEv)
    (hg : goodGridB c = true) (hmv : isMove e = true) (h : SlotInv c s) :
    SlotInv c (dispatch_event c s e) := by
  cases e with
  | mx v => exact is_not_finger_moved_inv c _ hg (slotInvLoose_set_x c s v (slotInv_loose c s h))
  | my v => exact is_not_finger_moved_inv c _ hg (slotInvLoose_set_y c s v (slotInv_loose c s h))
  | touch v => cases hmv

theorem dispatch_moves_inv (c : Config) (l : List TEv) (s : SlotState)
    (hg : goodGridB c = true) (hl : ∀ e ∈ l, isMove e = true) (h : SlotInv c s) :
    SlotInv c (dispatch_events c s l) := by
  induction l generalizing s with
  | nil => exact h
  | cons e t ih =>
      exact ih (dispatch_event c s e) (fun e2 he2 => hl e2 (List.mem_cons_of_mem e he2))
        (dispatch_move_inv c s e hg (hl e (List.mem_cons_self e t)) h)

theorem dispatch_move_idle (c : Config) (s : SlotState) (e : TEv)
    (hmv : isMove e = true) (h : SlotIdle c s) :
    SlotIdle c (dispatch_event c s e) := by
  obtain ⟨⟨h1, h2, h3, h4, hm⟩, ha⟩ := h
  rw [ha] at hm
  obtain ⟨x0, y0, a0, tr0, tl0, ac0, sn0, o0⟩ := s
  simp only at ha
  subst ha
  cases e with
  | mx v =>
      rw [show dispatch_event c ⟨x0, y0, none, tr0, tl0, ac0, sn0, o0⟩ (TEv.mx v)
          = ⟨v, y0, none, tr0, tl0, ac0, sn0, o0⟩ from
        is_not_finger_moved_none c ⟨v, y0, none, tr0, tl0, ac0, sn0, o0⟩ rfl]
      exact ⟨⟨h1, h2, h3, h4, hm⟩, rfl⟩
  | my v =>
      rw [show dispatch_event c ⟨x0, y0, none, tr0, tl0, ac0, sn0, o0⟩ (TEv.my v)
          = ⟨x0, v, none, tr0, tl0, ac0, sn0, o0⟩ from
        is_not_finger_moved_none c ⟨x0, v, none, tr0, tl0, ac0, sn0, o0⟩ rfl]
      exact ⟨⟨h1, h2, h3, h4, hm⟩, rfl⟩
  | touch v => cases hmv

theorem dispatch_moves_idle (c : Config) (l : List TEv) (s : SlotState)
    (hl : ∀ e ∈ l, isMove e = true) (h : SlotIdle c s) :
    SlotIdle c (dispatch_events c s l) := by
  induction l generalizing s with
  | nil => exact h
  | cons e t ih =>
      exact ih (dispatch_event c s e) (fun e2 he2 => hl e2 (List.mem_cons_of_mem e he2))
        (dispatch_move_idle c s e (hl e (List.mem_cons_self e t)) h)

theorem slide_top_left_unarmed (c : Config) (v : Bool) (s : SlotState)
    (h : s.tlArmed = false) : is_slided_from_top_left_icon c v s = (false, s) := by
  unfold is_slided_from_top_left_icon
  cases v with
  | true => rw [if_pos rfl]
  | false =>
      rw [if_neg (by simp), if_pos (by simp [h])]

theorem slide_top_right_unarmed (c : Config) (v : Bool) (s : SlotState)
    (h : s.trArmed = false) : is_slided_from_top_right_icon c v s = (false, s) := by
  unfold is_slided_from_top_right_icon
  cases v with
  | true => rw [if_pos rfl]
  | false =>
      rw [if_neg (by simp), if_pos (by simp [h])]

theorem touch_step_no_icon_eq (c : Config) (v : Bool) (s : SlotState)
    (htr0 : is_pressed_touchpad_top_right_icon c s.x s.y = false)
    (htl0 : is_pressed_touchpad_top_left_icon c s.x s.y = false)
    (htrA : s.trArmed = false) (htlA : s.tlArmed = false) :
    touch_step c v s =
      (if ¬s.active then s
       else if s.x < c.minxNumpad ∨ s.x > c.maxxNumpad
          ∨ s.y < c.minyNumpad ∨ s.y > c.maxyNumpad then s
       else if rowIdx c s.y < 0 ∨ colIdx c s.x < 0 then s
       else if s.assigned = none ∧ v = false then s
       else
        match (c.keys.get? (rowIdx c s.y).toNat).bind
            (fun r => r.get? (colIdx c s.x).toNat) with
        | none => s
        | some none => s
        | some (some key) =>
            let s3 := { s with assigned := some key }
            if v then
              if c.keyRepetitions then pressed_numpad_key s3
              else unpressed_numpad_key none (pressed_numpad_key s3)
            else unpressed_numpad_key none s3) := by
  unfold touch_step
  rw [if_neg (by simp [htr0]), if_neg (by simp [htl0])]
  simp only [slide_top_left_unarmed c v s htlA, slide_top_right_unarmed c v s htrA]
  rw [if_neg (by simp), if_neg (by simp)]

theorem outsideIcons_split (c : Config) (s : SlotState) (h : outsideIconsB c s = true) :
    is_pressed_touchpad_top_right_icon c s.x s.y = false ∧
    is_pressed_touchpad_top_left_icon c s.x s.y = false := by
  rw [outsideIconsB, Bool.and_eq_true, Bool.not_eq_true', Bool.not_eq_true'] at h
  exact h

theorem touch_down_inv (c : Config) (s : SlotState)
    (hg : goodGridB c = true) (h : SlotIdle c s) (hout : outsideIconsB c s = true) :
    SlotInv c (touch_step c true s) := by
  obtain ⟨⟨h1, h2, h3, h4, hm⟩, ha⟩ := h
  rw [ha] at hm
  have hicons := outsideIcons_split c s hout
  rw [touch_step_no_icon_eq c true s hicons.1 hicons.2 h3 h4]
  rw [if_neg (fun hq => hq h1)]
  by_cases hrect : s.x < c.minxNumpad ∨ s.x > c.maxxNumpad
      ∨ s.y < c.minyNumpad ∨ s.y > c.maxyNumpad
  · rw [if_pos hrect]
    exact ⟨h1, h2, h3, h4, by rw [ha]; exact hm⟩
  · rw [if_neg hrect]
    by_cases hneg : rowIdx c s.y < 0 ∨ colIdx c s.x < 0
    · rw [if_pos hneg]
      exact ⟨h1, h2, h3, h4, by rw [ha]; exact hm⟩
    · rw [if_neg hneg]
      rw [if_neg (fun hq => by simp at hq)]
      cases hlook : (c.keys.get? (rowIdx c s.y).toNat).bind
          (fun r => r.get? (colIdx c s.x).toNat) with
      | none => exact ⟨h1, h2, h3, h4, by rw [ha]; exact hm⟩
      | some cell =>
          cases cell with
          | none => exact ⟨h1, h2, h3, h4, by rw [ha]; exact hm⟩
          | some key =>
              have htouch : get_touched_key c s.x s.y = some key := by
                unfold get_touched_key Config.cellAt
                rw [if_neg hneg, hlook]
                rfl
              have hgk := touched_goodKey c s.x s.y key hg htouch
              simp only
              rw [if_pos trivial]
              by_cases hrep : c.keyRepetitions = true
              · rw [if_pos hrep]
                cases key with
                | code kc =>
                    rw [pressed_code_eq _ kc rfl]
                    have hk := goodKey_code kc hgk
                    exact ⟨h1, h2, h3, h4, hk.1, hk.2, htouch,
                      keyDeficit_after_press kc s.out hm⟩
                | uni cs =>
                    rw [pressed_uni_eq _ cs rfl]
                    have hk := goodKey_uni cs hgk
                    exact ⟨h1, h2, h3, h4, hk, htouch, balanced_after_unicode _ cs hm⟩
              · rw [if_neg hrep]
                cases key with
                | code kc =>
                    rw [pressed_code_eq _ kc rfl, unpressed_code_none_eq _ kc rfl]
                    exact ⟨h1, h2, h3, h4,
                      balanced_after_release kc _ (keyDeficit_after_press kc s.out hm)⟩
                | uni cs =>
                    rw [pressed_uni_eq _ cs rfl, unpressed_uni_none_eq _ cs rfl]
                    exact ⟨h1, h2, h3, h4, balanced_after_unicode _ cs hm⟩

theorem touch_up_idle (c : Config) (s : SlotState)
    (hg : goodGridB c = true) (hn : 0 < c.colCount) (hm2 : 0 < c.rowCount)
    (hsx : c.minxNumpad < c.maxxNumpad) (hsy : c.minyNumpad < c.maxyNumpad)
    (h : SlotInv c s) (hcond : outsideIconsB c s = true ∨ s.assigned = none) :
    SlotIdle c (touch_step c false s) := by
  obtain ⟨h1, h2, h3, h4, hmain⟩ := h
  cases ha : s.assigned with
  | none =>
      rw [ha] at hmain
      unfold touch_step
      by_cases htr : is_pressed_touchpad_top_right_icon c s.x s.y = true
      · rw [if_pos htr]
        rw [show pressed_touchpad_top_right_icon false s = s from rfl]
        exact ⟨⟨h1, h2, h3, h4, by rw [ha]; exact hmain⟩, ha⟩
      · rw [if_neg htr]
        by_cases htl : is_pressed_touchpad_top_left_icon c s.x s.y = true
        · rw [if_pos htl]
          rw [show pressed_touchpad_top_left_icon false s
              = set_none_to_current_mt_slot s from rfl]
          exact ⟨⟨h1, h2, h3, h4, hmain⟩, rfl⟩
        · rw [if_neg htl]
          simp only [slide_top_left_unarmed c false s h4, slide_top_right_unarmed c false s h3]
          rw [if_neg (by simp), if_neg (by simp)]
          rw [if_neg (fun hq => hq h1)]
          by_cases hrect : s.x < c.minxNumpad ∨ s.x > c.maxxNumpad
              ∨ s.y < c.minyNumpad ∨ s.y > c.maxyNumpad
          · rw [if_pos hrect]
            exact ⟨⟨h1, h2, h3, h4, by rw [ha]; exact hmain⟩, ha⟩
          · rw [if_neg hrect]
            by_cases hneg : rowIdx c s.y < 0 ∨ colIdx c s.x < 0
            · rw [if_pos hneg]
              exact ⟨⟨h1, h2, h3, h4, by rw [ha]; exact hmain⟩, ha⟩
            · rw [if_neg hneg]
              rw [if_pos ⟨ha, trivial⟩]
              exact ⟨⟨h1, h2, h3, h4, by rw [ha]; exact hmain⟩, ha⟩
  | some k =>
      have hout : outsideIconsB c s = true := by
        cases hcond with
        | inl hq => exact hq
        | inr hq => rw [ha] at hq; exact Option.noConfusion hq
      have hicons := outsideIcons_split c s hout
      rw [touch_step_no_icon_eq c false s hicons.1 hicons.2 h3 h4]
      rw [if_neg (fun hq => hq h1)]
      cases k with
      | code kc =>
          rw [ha] at hmain
          obtain ⟨hk1, hk2, htouch, hdef⟩ := hmain
          have hfacts := touched_some_facts c s.x s.y (Key.code kc) hn hm2 hsx hsy htouch
          rw [if_neg (by
            push_neg
            exact ⟨hfacts.1.1, hfacts.1.2.1, hfacts.1.2.2.1, hfacts.1.2.2.2⟩)]
          rw [if_neg (by
            push_neg
            exact ⟨hfacts.2.1.1, hfacts.2.1.2⟩)]
          rw [if_neg (fun hq => by rw [ha] at hq; exact Option.noConfusion hq.1)]
          rw [hfacts.2.2]
          simp only
          rw [if_neg (by simp)]
          rw [unpressed_code_none_eq _ kc rfl]
          exact ⟨⟨h1, h2, h3, h4, balanced_after_release kc s.out hdef⟩, rfl⟩
      | uni cs =>
          rw [ha] at hmain
          obtain ⟨hcs, htouch, hbal⟩ := hmain
          have hfacts := touched_some_facts c s.x s.y (Key.uni cs) hn hm2 hsx hsy htouch
          rw [if_neg (by
            push_neg
            exact ⟨hfacts.1.1, hfacts.1.2.1, hfacts.1.2.2.1, hfacts.1.2.2.2⟩)]
          rw [if_neg (by
            push_neg
            exact ⟨hfacts.2.1.1, hfacts.2.1.2⟩)]
          rw [if_neg (fun hq => by rw [ha] at hq; exact Option.noConfusion hq.1)]
          rw [hfacts.2.2]
          simp only
          rw [if_neg (by simp)]
          rw [unpressed_uni_none_eq _ cs rfl]
          exact ⟨⟨h1, h2, h3, h4, hbal⟩, rfl⟩

theorem dispatch_events_append (c : Config) (l1 l2 : List TEv) (s : SlotState) :
    dispatch_events c s (l1 ++ l2) = dispatch_events c (dispatch_events c s l1) l2 := by
  simp [dispatch_events, List.foldl_append]

theorem goodConfig_split (c : Config) (hg : goodConfigB c = true) :
    goodGridB c = true ∧ 0 < c.colCount ∧ 0 < c.rowCount
      ∧ c.minxNumpad < c.maxxNumpad ∧ c.minyNumpad < c.maxyNumpad := by
  simp only [goodConfigB, Bool.and_eq_true, decide_eq_true_eq] at hg
  exact ⟨hg.1.1.1.1, hg.1.1.1.2, hg.1.1.2, hg.1.2, hg.2⟩

theorem contact_preserves_idle (c : Config) (s : SlotState) (ct : Contact)
    (hg : goodConfigB c = true) (hok : contactOkB c s ct = true) (h : SlotIdle c s) :
    SlotIdle c (dispatch_events c s (contact_events ct)) := by
  obtain ⟨hgrid, hcol, hrow, hsx, hsy⟩ := goodConfig_split c hg
  simp only [contactOkB, Bool.and_eq_true] at hok
  obtain ⟨⟨⟨hpre, hmid⟩, hdown⟩, hup⟩ := hok
  have hpre2 : ∀ e ∈ ct.preMoves, isMove e = true := by
    rw [List.all_eq_true] at hpre
    exact hpre
  have hmid2 : ∀ e ∈ ct.midMoves, isMove e = true := by
    rw [List.all_eq_true] at hmid
    exact hmid
  have hidle1 : SlotIdle c (dispatch_events c s ct.preMoves) :=
    dispatch_moves_idle c ct.preMoves s hpre2 h
  have hinv2 : SlotInv c
      (dispatch_event c (dispatch_events c s ct.preMoves) (TEv.touch true)) :=
    touch_down_inv c _ hgrid hidle1 hdown
  have hinv3 : SlotInv c (dispatch_events c
      (dispatch_event c (dispatch_events c s ct.preMoves) (TEv.touch true))
      ct.midMoves) :=
    dispatch_moves_inv c ct.midMoves _ hgrid hmid2 hinv2
  have hupc : outsideIconsB c (dispatch_events c
        (dispatch_event c (dispatch_events c s ct.preMoves) (TEv.touch true))
        ct.midMoves) = true
      ∨ (dispatch_events c
        (dispatch_event c (dispatch_events c s ct.preMoves) (TEv.touch true))
        ct.midMoves).assigned = none := by
    rw [Bool.or_eq_true, decide_eq_true_eq] at hup
    exact hup
  have hfin : SlotIdle c (touch_step c false (dispatch_events c
      (dispatch_event c (dispatch_events c s ct.preMoves) (TEv.touch true))
      ct.midMoves)) :=
    touch_up_idle c _ hgrid hcol hrow hsx hsy hinv3 hupc
  show SlotIdle c (dispatch_events c s
    (ct.preMoves ++ [TEv.touch true] ++ ct.midMoves ++ [TEv.touch false]))
  rw [dispatch_events_append, dispatch_events_append, dispatch_events_append]
  exact hfin

theorem run_contacts_idle (c : Config) (tr : List Contact) (s : SlotState)
    (hg : goodConfigB c = true) (hok : traceOkB c s tr = true) (h : SlotIdle c s) :
    SlotIdle c (run_contacts c s tr) := by
  induction tr generalizing s with
  | nil => exact h
  | cons ct rest ih =>
      simp only [traceOkB, Bool.and_eq_true] at hok
      exact ih _ hok.2 (contact_preserves_idle c s ct hg hok.1 h)

/-- Claim C1 (amended): for every sequence of contacts on one slot while the
numpad is active, provided each contact-down is processed at a position
outside both icon rectangles and each contact-up either likewise or with no
key assigned (without this restriction the claim is false: see the C2
counterexample, where a numlock-icon contact releases into the grid and
emits an unmatched key-up), by the time the slot's assigned key has
returned to `None` the number of emitted key-down events equals the number
of key-up events for every key code.  The "key repetition" clause holds
with the OPPOSITE polarity to the one claimed: when key repetition is NOT
configured, each contact-down on a grid cell emits exactly one paired
down+up immediately (leaving the slot unassigned); when it is configured,
the down is emitted at contact-down and the up only at the contact-up
(see the counterexample `key_repetition_down_not_paired`). -/
theorem contact_updown_pairing (c : Config) (tr : List Contact)
    (hcfg : goodConfigB c = true) (htr : traceOkB c slotInit tr = true) :
    ((run_contacts c slotInit tr).assigned = none ∧
      ∀ k, countKey k true (run_contacts c slotInit tr).out
          = countKey k false (run_contacts c slotInit tr).out) ∧
    (∀ (s : SlotState) (kc : Nat),
      c.keyRepetitions = false →
      SlotIdle c s → outsideIconsB c s = true →
      get_touched_key c s.x s.y = some (Key.code kc) →
      (touch_step c true s).out
          = s.out ++ [Ev.keyEv kc true, Ev.syn] ++ [Ev.keyEv kc false, Ev.syn] ∧
      (touch_step c true s).assigned = none) := by
  obtain ⟨hgrid, hcol, hrow, hsx, hsy⟩ := goodConfig_split c hcfg
  constructor
  · have hidle0 : SlotIdle c slotInit := ⟨⟨rfl, rfl, rfl, rfl, fun j => rfl⟩, rfl⟩
    have hidle := run_contacts_idle c tr slotInit hcfg htr hidle0
    refine ⟨hidle.2, ?_⟩
    have h5 := hidle.1.2.2.2.2
    rw [hidle.2] at h5
    exact h5
  · intro s kc hrep hidle hout htouch
    obtain ⟨⟨h1, h2, h3, h4, hm⟩, ha⟩ := hidle
    have hicons := outsideIcons_split c s hout
    have hfacts := touched_some_facts c s.x s.y (Key.code kc) hcol hrow hsx hsy htouch
    rw [touch_step_no_icon_eq c true s hicons.1 hicons.2 h3 h4]
    rw [if_neg (fun hq => hq h1)]
    rw [if_neg (by
      push_neg
      exact ⟨hfacts.1.1, hfacts.1.2.1, hfacts.1.2.2.1, hfacts.1.2.2.2⟩)]
    rw [if_neg (by
      push_neg
      exact ⟨hfacts.2.1.1, hfacts.2.1.2⟩)]
    rw [if_neg (fun hq => by simp at hq)]
    rw [hfacts.2.2]
    simp only
    rw [if_pos trivial]
    rw [if_neg (by simp [hrep])]
    rw [pressed_code_eq _ kc rfl, unpressed_code_none_eq _ kc rfl]
    exact ⟨rfl, rfl⟩

/-- Witness for C1 (amended): one full contact at (110, 110) on the cell of
KEY_KP5 = 76 with repetitions disabled leaves the slot unassigned with a
balanced output stream, and the contact-down alone already emitted the
paired down+up. -/
theorem contact_updown_pairing_witness :
    goodConfigB cfgW = true ∧
    traceOkB cfgW slotInit [⟨[TEv.mx 110, TEv.my 110], []⟩] = true ∧
    (run_contacts cfgW slotInit [⟨[TEv.mx 110, TEv.my 110], []⟩]).assigned = none ∧
    countKey 76 true (run_contacts cfgW slotInit [⟨[TEv.mx 110, TEv.my 110], []⟩]).out
      = countKey 76 false (run_contacts cfgW slotInit [⟨[TEv.mx 110, TEv.my 110], []⟩]).out ∧
    (touch_step cfgW true preMovedState).out
      = preMovedState.out ++ [Ev.keyEv 76 true, Ev.syn] ++ [Ev.keyEv 76 false, Ev.syn] :=
  ⟨by decide, by decide,
   (contact_updown_pairing cfgW [⟨[TEv.mx 110, TEv.my 110], []⟩]
      (by decide) (by decide)).1.1,
   (contact_updown_pairing cfgW [⟨[TEv.mx 110, TEv.my 110], []⟩]
      (by decide) (by decide)).1.2 76,
   ((contact_updown_pairing cfgW [] (by decide) (by decide)).2 preMovedState 76 rfl
      ⟨⟨rfl, rfl, rfl, rfl, fun j => rfl⟩, rfl⟩ (by decide) (by decide)).1⟩
